import Mathlib

/-!
Verification development for the zistudy-api AI study-card generation
pipeline.  Python source files are embedded shallowly: pydantic models become
Lean structures, fallible constructors return `Except`, dictionaries become
association lists over a small JSON value type, and the agent's retry loop
becomes a fuel-indexed recursion.  Machine strings are Lean `String`s;
Python `str.strip` is modelled by `String.trim` (identical on ASCII
whitespace, which is all the code manipulates).
-/

namespace ZiStudy

/-! ## Python string primitives -/

/-- Model of Python `str.strip()` (no arguments): drop whitespace at both
ends. -/
def pyStrip (s : String) : String :=
  ⟨((s.data.dropWhile Char.isWhitespace).reverse.dropWhile Char.isWhitespace).reverse⟩

/-- Model of Python `str.splitlines()` restricted to `\n` separators (the
only separator produced by the code under study). -/
def pyLines (s : String) : List String := s.splitOn "\n"

/-- Model of Python `str.lstrip("#")`: drop leading `#` characters. -/
def lstripHash (s : String) : String :=
  ⟨s.data.dropWhile (fun c => c = '#')⟩

/-- Model of Python `str.startswith("#")`. -/
def startsWithHash (s : String) : Bool :=
  match s.data with
  | [] => false
  | c :: _ => c = '#'

/-- Model of Python `s[:n]` on strings (slice of the first `n` characters). -/
def pyTake (s : String) (n : Nat) : String := ⟨s.data.take n⟩

/-- Model of Python `str.split()` with no argument: split on whitespace
runs, discarding empty pieces. -/
def pySplitWs (s : String) : List String :=
  (s.split (fun c => c.isWhitespace)).filter (fun w => w ≠ "")

/-- Model of Python `" ".join(content.split())` (whitespace collapsing used
by the PDF chunker). -/
def collapseWs (s : String) : String :=
  String.intercalate " " (pySplitWs s)

/-! ## JSON values

The generative client, the schema resolver and the pydantic dump/parse
functions all operate on JSON data.  Objects are association lists in
insertion order, matching Python `dict` semantics for the operations the
code performs (`get`, membership, comprehension). -/

inductive JVal where
  | null : JVal
  | bool (b : Bool) : JVal
  | str (s : String) : JVal
  | num (q : Rat) : JVal
  | arr (items : List JVal) : JVal
  | obj (entries : List (String × JVal)) : JVal
  deriving Repr, Inhabited

/-- Model of Python `dict.get(key)` on an association list (first match). -/
def jGet : List (String × JVal) → String → Option JVal
  | [], _ => none
  | (k, v) :: rest, key => if k = key then some v else jGet rest key

/-- Model of Python `key in dict`. -/
def jHasKey (entries : List (String × JVal)) (key : String) : Bool :=
  (jGet entries key).isSome

/-- Python truthiness of a JSON value (`if value:`). -/
def jTruthy : JVal → Bool
  | .null => false
  | .bool b => b
  | .str s => s != ""
  | .num q => q != 0
  | .arr items => !items.isEmpty
  | .obj entries => !entries.isEmpty

/-- Model of Python `str(value)` applied to a JSON scalar; list/object
renderings are approximated (the code under study only hits the scalar
cases). -/
def pyStr : JVal → String
  | .null => "None"
  | .bool b => if b then "True" else "False"
  | .str s => s
  | .num q => toString q
  | .arr _ => "[...]"
  | .obj _ => "{...}"

/-! ## domain/enums.py -/

/-- `CardType` enumeration from `zistudy_api/domain/enums.py`. -/
inductive CardType where
  | mcqSingle | mcqMulti | written | trueFalse | cloze | emq | note | flashcard
  deriving DecidableEq, Repr

/-- `CardType.is_question` from `enums.py` (note and flashcard excluded). -/
def CardType.isQuestion : CardType → Bool
  | .mcqSingle | .mcqMulti | .written | .trueFalse | .cloze | .emq => true
  | .note | .flashcard => false

/-! ## domain/schemas/study_cards.py : typed card payloads -/

/-- `CardGeneratorMetadata` provenance record.  Floating point temperature
is modelled by `Rat`; the code only passes it through. -/
structure CardGeneratorMetadata where
  model : String
  temperature : Option Rat := none
  requested_card_count : Option Int := none
  topics : Option (List String) := none
  clinical_focus : Option (List String) := none
  learning_objectives : Option (List String) := none
  preferred_card_types : Option (List String) := none
  existing_card_ids : Option (List Int) := none
  sources : Option (List String) := none
  schema_version : String := "1.0.0"
  deriving DecidableEq, Repr

/-- `CardOption`. -/
structure CardOption where
  id : String
  text : String
  deriving DecidableEq, Repr

/-- `CardRationale`; `alternatives : dict[str, str]` as an association
list. -/
structure CardRationale where
  primary : String
  alternatives : List (String × String) := []
  deriving DecidableEq, Repr

/-- `NoteCardData`. -/
structure NoteCardData where
  generator : Option CardGeneratorMetadata := none
  title : String
  markdown : String
  deriving DecidableEq, Repr

/-- Shared fields of `QuestionCardData`. -/
structure QuestionCardData where
  generator : Option CardGeneratorMetadata := none
  prompt : String
  rationale : Option CardRationale := none
  glossary : List (String × String) := []
  connections : List String := []
  references : List String := []
  numerical_ranges : List String := []
  deriving DecidableEq, Repr

/-- Field content of `McqSingleCardData` / `McqMultiCardData` (before the
pydantic validators run). -/
structure MultipleChoiceCardData extends QuestionCardData where
  options : List CardOption := []
  correct_option_ids : List String := []
  deriving DecidableEq, Repr

/-- `WrittenCardData`. -/
structure WrittenCardData extends QuestionCardData where
  expected_answer : Option String := none
  deriving DecidableEq, Repr

/-- `TrueFalseCardData`. -/
structure TrueFalseCardData extends QuestionCardData where
  correct_answer : Bool
  deriving DecidableEq, Repr

/-- `ClozeCardData`. -/
structure ClozeCardData extends QuestionCardData where
  cloze_answers : List String := []
  deriving DecidableEq, Repr

/-- `EmqMatch`. -/
structure EmqMatch where
  premise_index : Int
  option_index : Int
  deriving DecidableEq, Repr

/-- `EmqCardData`. -/
structure EmqCardData extends QuestionCardData where
  instructions : Option String := none
  premises : List String := []
  options : List String := []
  «matches» : List EmqMatch := []
  deriving DecidableEq, Repr

/-- `GenericCardData`; `payload : dict[str, Any] | None` as an optional
JSON object. -/
structure GenericCardData where
  generator : Option CardGeneratorMetadata := none
  payload : Option (List (String × JVal)) := none
  deriving Repr

/-- The closed `CardData` union. -/
inductive CardData where
  | note (d : NoteCardData)
  | mcqSingle (d : MultipleChoiceCardData)
  | mcqMulti (d : MultipleChoiceCardData)
  | written (d : WrittenCardData)
  | trueFalse (d : TrueFalseCardData)
  | cloze (d : ClozeCardData)
  | emq (d : EmqCardData)
  | generic (d : GenericCardData)
  deriving Repr

/-! ### Pydantic validators on the MCQ variants

`MultipleChoiceCardData._validate_option_ids` runs on construction; the
subclass validators `_validate_single` / `_validate_multi` run after it.
Construction is therefore modelled as a fallible function. -/

/-- `MultipleChoiceCardData._validate_option_ids`: at least one correct id,
and every correct id must reference a declared option. -/
def validateOptionIds (d : MultipleChoiceCardData) : Except String Unit :=
  if d.correct_option_ids = [] then
    .error "At least one correct option identifier is required."
  else
    let optionIds := d.options.map (fun o => o.id)
    let missing := d.correct_option_ids.filter (fun i => ¬ optionIds.contains i)
    if missing = [] then .ok () else
      .error "Unknown option identifiers referenced"

/-- Constructing an `McqSingleCardData` (base validator, then the
exactly-one-correct-id validator). -/
def mkMcqSingle (d : MultipleChoiceCardData) : Except String MultipleChoiceCardData := do
  _ ← validateOptionIds d
  if d.correct_option_ids.length = 1 then pure d
  else .error "MCQ single cards must have exactly one correct option identifier."

/-- Constructing an `McqMultiCardData` (base validator, then the
at-least-two-correct-ids validator). -/
def mkMcqMulti (d : MultipleChoiceCardData) : Except String MultipleChoiceCardData := do
  _ ← validateOptionIds d
  if 2 ≤ d.correct_option_ids.length then pure d
  else .error "MCQ multi cards must have at least two correct option identifiers."

/-! ### `model_dump` of the typed card payloads

Pydantic's `model_dump(mode="json")` renders a model as a dictionary in
field-declaration order, recursing into nested models, with `None` fields
rendered as JSON null. -/

/-- Dump an optional string. -/
def jOptStr : Option String → JVal
  | none => .null
  | some s => .str s

/-- Dump a list of strings. -/
def jStrList (l : List String) : JVal := .arr (l.map .str)

/-- Dump a string-to-string dictionary. -/
def jStrDict (l : List (String × String)) : JVal :=
  .obj (l.map (fun kv => (kv.1, .str kv.2)))

/-- Dump an optional number. -/
def dumpOptNum : Option Rat → JVal
  | none => .null
  | some q => .num q

/-- Dump an optional integer. -/
def dumpOptInt : Option Int → JVal
  | none => .null
  | some n => .num (n : Rat)

/-- Dump an optional list of strings. -/
def dumpOptStrList : Option (List String) → JVal
  | none => .null
  | some l => jStrList l

/-- Dump an optional list of integers. -/
def dumpOptIntList : Option (List Int) → JVal
  | none => .null
  | some l => .arr (l.map (fun (n : Int) => JVal.num (n : Rat)))

/-- Entries of the dump of `CardGeneratorMetadata`. -/
def metaDumpEntries (g : CardGeneratorMetadata) : List (String × JVal) :=
  [ ("model", .str g.model)
  , ("temperature", dumpOptNum g.temperature)
  , ("requested_card_count", dumpOptInt g.requested_card_count)
  , ("topics", dumpOptStrList g.topics)
  , ("clinical_focus", dumpOptStrList g.clinical_focus)
  , ("learning_objectives", dumpOptStrList g.learning_objectives)
  , ("preferred_card_types", dumpOptStrList g.preferred_card_types)
  , ("existing_card_ids", dumpOptIntList g.existing_card_ids)
  , ("sources", dumpOptStrList g.sources)
  , ("schema_version", .str g.schema_version) ]

/-- Dump of `CardGeneratorMetadata`. -/
def metaDump (g : CardGeneratorMetadata) : JVal := .obj (metaDumpEntries g)

/-- Dump of an optional `CardGeneratorMetadata` field. -/
def metaOptDump : Option CardGeneratorMetadata → JVal
  | none => .null
  | some g => metaDump g

/-- Dump of `CardOption`. -/
def optionDump (o : CardOption) : JVal :=
  .obj [("id", .str o.id), ("text", .str o.text)]

/-- Dump of `CardRationale`. -/
def rationaleDump (r : CardRationale) : JVal :=
  .obj [("primary", .str r.primary), ("alternatives", jStrDict r.alternatives)]

/-- Dump of an optional rationale. -/
def rationaleOptDump : Option CardRationale → JVal
  | none => .null
  | some r => rationaleDump r

/-- Dump of `EmqMatch`. -/
def matchDump (m : EmqMatch) : JVal :=
  .obj [("premise_index", .num (m.premise_index : Rat)),
        ("option_index", .num (m.option_index : Rat))]

/-- Dump of the shared `QuestionCardData` fields. -/
def questionFieldsDump (q : QuestionCardData) : List (String × JVal) :=
  [ ("generator", metaOptDump q.generator)
  , ("prompt", .str q.prompt)
  , ("rationale", rationaleOptDump q.rationale)
  , ("glossary", jStrDict q.glossary)
  , ("connections", jStrList q.connections)
  , ("references", jStrList q.references)
  , ("numerical_ranges", jStrList q.numerical_ranges) ]

/-- `model_dump` for every `CardData` variant. -/
def dumpCardData : CardData → JVal
  | .note n =>
      .obj
        [ ("generator", metaOptDump n.generator)
        , ("title", .str n.title)
        , ("markdown", .str n.markdown) ]
  | .mcqSingle d =>
      .obj (questionFieldsDump d.toQuestionCardData ++
        [ ("options", .arr (d.options.map optionDump))
        , ("correct_option_ids", jStrList d.correct_option_ids) ])
  | .mcqMulti d =>
      .obj (questionFieldsDump d.toQuestionCardData ++
        [ ("options", .arr (d.options.map optionDump))
        , ("correct_option_ids", jStrList d.correct_option_ids) ])
  | .written d =>
      .obj (questionFieldsDump d.toQuestionCardData ++
        [("expected_answer", jOptStr d.expected_answer)])
  | .trueFalse d =>
      .obj (questionFieldsDump d.toQuestionCardData ++
        [("correct_answer", .bool d.correct_answer)])
  | .cloze d =>
      .obj (questionFieldsDump d.toQuestionCardData ++
        [("cloze_answers", jStrList d.cloze_answers)])
  | .emq d =>
      .obj (questionFieldsDump d.toQuestionCardData ++
        [ ("instructions", jOptStr d.instructions)
        , ("premises", jStrList d.premises)
        , ("options", jStrList d.options)
        , ("matches", .arr (d.«matches».map matchDump)) ])
  | .generic g =>
      .obj
        [ ("generator", metaOptDump g.generator)
        , ("payload", match g.payload with | none => .null | some e => .obj e) ]

/-! ### Parsing helpers from `study_cards.py` -/

/-- Extract an integer from a JSON value (pydantic `int` field). -/
def jAsInt : JVal → Option Int
  | .num q => if q.den = 1 then some q.num else none
  | _ => none

/-- Validate a JSON value as a list of strings (pydantic `list[str]`). -/
def jAsStrList : JVal → Option (List String)
  | .arr items =>
      items.foldr (fun it acc =>
        match it, acc with
        | .str s, some l => some (s :: l)
        | _, _ => none) (some [])
  | _ => none

/-- Validate a JSON value as a list of integers (pydantic `list[int]`). -/
def jAsIntList : JVal → Option (List Int)
  | .arr items =>
      items.foldr (fun it acc =>
        match jAsInt it, acc with
        | some n, some l => some (n :: l)
        | _, _ => none) (some [])
  | _ => none

/-- Validate a string-to-string dictionary (pydantic `dict[str, str]`). -/
def jAsStrDict : JVal → Option (List (String × String))
  | .obj entries =>
      entries.foldr (fun kv acc =>
        match kv.2, acc with
        | .str s, some l => some ((kv.1, s) :: l)
        | _, _ => none) (some [])
  | _ => none

/-- An optional field of type `T | None`: absent and null give `none`. -/
def jOptField (f : JVal → Option α) : Option JVal → Option (Option α)
  | none => some none
  | some .null => some none
  | some v => (f v).map some

/-- `CardGeneratorMetadata.model_validate` on a JSON object (failures give
`none`, mirroring `_maybe_model` catching `ValidationError`). -/
def metaValidate (entries : List (String × JVal)) : Option CardGeneratorMetadata := do
  let model ← match jGet entries "model" with | some (.str s) => some s | _ => none
  let temperature ← jOptField (fun v => match v with | .num q => some q | _ => none)
    (jGet entries "temperature")
  let requested ← jOptField jAsInt (jGet entries "requested_card_count")
  let topics ← jOptField jAsStrList (jGet entries "topics")
  let clinical ← jOptField jAsStrList (jGet entries "clinical_focus")
  let objectives ← jOptField jAsStrList (jGet entries "learning_objectives")
  let preferred ← jOptField jAsStrList (jGet entries "preferred_card_types")
  let existing ← jOptField jAsIntList (jGet entries "existing_card_ids")
  let sources ← jOptField jAsStrList (jGet entries "sources")
  let version ← match jGet entries "schema_version" with
    | none => some "1.0.0"
    | some (.str s) => some s
    | some _ => none
  pure
    { model := model, temperature := temperature, requested_card_count := requested
      topics := topics, clinical_focus := clinical, learning_objectives := objectives
      preferred_card_types := preferred, existing_card_ids := existing
      sources := sources, schema_version := version }

/-- `_maybe_model(CardGeneratorMetadata, value)`: `None` and non-dicts give
`None`; dicts are validated with failures swallowed. -/
def maybeMeta : Option JVal → Option CardGeneratorMetadata
  | some (.obj entries) => metaValidate entries
  | _ => none

/-- `CardRationale.model_validate` (via `_maybe_model`). -/
def rationaleValidate (entries : List (String × JVal)) : Option CardRationale := do
  let primary ← match jGet entries "primary" with | some (.str s) => some s | _ => none
  let alternatives ← match jGet entries "alternatives" with
    | none => some []
    | some v => jAsStrDict v
  pure { primary := primary, alternatives := alternatives }

/-- `_maybe_model(CardRationale, value)`. -/
def maybeRationale : Option JVal → Option CardRationale
  | some (.obj entries) => rationaleValidate entries
  | _ => none

/-- `CardOption.model_validate` (invalid options are skipped in the MCQ
branch of `_convert_card_data`). -/
def optionValidate : JVal → Option CardOption
  | .obj entries => do
      let id ← match jGet entries "id" with | some (.str s) => some s | _ => none
      let text ← match jGet entries "text" with | some (.str s) => some s | _ => none
      pure { id := id, text := text }
  | _ => none

/-- `EmqMatch.model_validate` (invalid matches are skipped). -/
def matchValidate : JVal → Option EmqMatch
  | .obj entries => do
      let p ← (jGet entries "premise_index").bind jAsInt
      let o ← (jGet entries "option_index").bind jAsInt
      pure { premise_index := p, option_index := o }
  | _ => none

/-- `_coerce_str_list(value)`: lists map `str` over items, `None` gives
`[]`, any other value is wrapped as `[str(value)]`. -/
def coerceStrList : Option JVal → List String
  | none => []
  | some .null => []
  | some (.arr items) => items.map pyStr
  | some v => [pyStr v]

/-- `_coerce_dict(value)`: dictionaries pass through, anything else gives
`{}`. -/
def coerceDict : Option JVal → List (String × JVal)
  | some (.obj entries) => entries
  | _ => []

/-- `_parse_bool` restricted to strings (the call site feeds it entries of
`_coerce_str_list`). -/
def parseBoolStr (s : String) : Option Bool :=
  let lowered := (pyStrip s).toLower
  if lowered ∈ ["true", "t", "1", "yes", "y"] then some true
  else if lowered ∈ ["false", "f", "0", "no", "n"] then some false
  else none

/-- Python `a or b` on optional JSON values: the first operand wins when it
is truthy, otherwise the second is returned as-is. -/
def pyOr (a b : Option JVal) : Option JVal :=
  match a with
  | some v => if jTruthy v then some v else b
  | none => b

/-- Whether a card type has an entry in `_CARD_TYPE_TO_MODEL` (all types
except `FLASHCARD`). -/
def isMappedCardType : CardType → Bool
  | .flashcard => false
  | _ => true

/-- Pydantic validation of a `dict[str, str]` field at construction time;
failure raises a `ValidationError` that `_convert_card_data` does not
catch. -/
def glossaryValidate (l : List (String × JVal)) : Except String (List (String × String)) :=
  match jAsStrDict (.obj l) with
  | some d => .ok d
  | none => .error "glossary values must be strings"

/-- Validation of the `instructions: str | None` field of `EmqCardData`. -/
def instructionsValidate : Option JVal → Except String (Option String)
  | none => .ok none
  | some .null => .ok none
  | some (.str s) => .ok (some s)
  | some _ => .error "instructions must be a string or null"

/-- Items Python would iterate for `payload_dict.get(key) or []`: JSON
arrays yield their items, anything else contributes nothing usable. -/
def iterItems : Option JVal → List JVal
  | some (.arr items) => items
  | _ => []

/-- `_convert_card_data(card_type, raw_data)`.  Returns `.ok none` where
Python returns `None`, `.ok (some c)` for a converted card, and `.error`
where an uncaught `ValidationError` escapes (pydantic construction
failures inside the branches). -/
def convert_card_data (ct : Option CardType) (raw : JVal) : Except String (Option CardData) :=
  match raw with
  | .obj entries =>
    let generator := maybeMeta (jGet entries "generator")
    let payloadDict := match jGet entries "payload" with
      | some (.obj p) => p
      | _ => entries
    match ct with
    | some .note =>
        match jGet payloadDict "markdown" with
        | some (.str markdown) =>
            let fromHeading : String :=
              match jGet payloadDict "heading" with
              | some (.str h) => if pyStrip h ≠ "" then pyStrip h else "Note"
              | _ => "Note"
            let titleStr : String :=
              match jGet payloadDict "title" with
              | some (.str t) => if pyStrip t ≠ "" then pyStrip t else fromHeading
              | _ => fromHeading
            .ok (some (.note { generator := generator, title := titleStr, markdown := markdown }))
        | _ => .ok none
    | some .flashcard => .ok none
    | none => .ok none
    | some qt =>
        match pyOr (jGet payloadDict "prompt") (jGet payloadDict "question") with
        | some (.str prompt) =>
            let rationale := maybeRationale (jGet payloadDict "rationale")
            let glossaryJ := coerceDict (jGet payloadDict "glossary")
            let mkBase : List (String × String) → QuestionCardData := fun glossary =>
              { generator := generator, prompt := prompt, rationale := rationale
                glossary := glossary
                connections := coerceStrList (jGet payloadDict "connections")
                references := coerceStrList (jGet payloadDict "references")
                numerical_ranges := coerceStrList
                  (pyOr (jGet payloadDict "numerical_ranges")
                        (jGet payloadDict "numericalRanges")) }
            match qt with
            | .mcqSingle =>
                let options := (iterItems
                  (pyOr (jGet payloadDict "options") (some (.arr [])))).filterMap optionValidate
                if options = [] then .ok none else
                let correctIds := coerceStrList
                  (pyOr (jGet payloadDict "correct_option_ids")
                        (jGet payloadDict "correct_answers"))
                match correctIds with
                | [c] => do
                    let glossary ← glossaryValidate glossaryJ
                    let d ← mkMcqSingle
                      { toQuestionCardData := mkBase glossary
                        options := options, correct_option_ids := [c] }
                    .ok (some (.mcqSingle d))
                | _ => .ok none
            | .mcqMulti =>
                let options := (iterItems
                  (pyOr (jGet payloadDict "options") (some (.arr [])))).filterMap optionValidate
                if options = [] then .ok none else
                let correctIds := coerceStrList
                  (pyOr (jGet payloadDict "correct_option_ids")
                        (jGet payloadDict "correct_answers"))
                if correctIds.length < 2 then .ok none else do
                  let glossary ← glossaryValidate glossaryJ
                  let d ← mkMcqMulti
                    { toQuestionCardData := mkBase glossary
                      options := options, correct_option_ids := correctIds }
                  .ok (some (.mcqMulti d))
            | .written => do
                let glossary ← glossaryValidate glossaryJ
                let expected := (coerceStrList (jGet payloadDict "correct_answers")).head?
                .ok (some (.written
                  { toQuestionCardData := mkBase glossary, expected_answer := expected }))
            | .trueFalse =>
                match coerceStrList (jGet payloadDict "correct_answers") with
                | [] => .ok none
                | c :: _ =>
                    match parseBoolStr c with
                    | none => .ok none
                    | some answer => do
                        let glossary ← glossaryValidate glossaryJ
                        .ok (some (.trueFalse
                          { toQuestionCardData := mkBase glossary, correct_answer := answer }))
            | .cloze => do
                let glossary ← glossaryValidate glossaryJ
                .ok (some (.cloze
                  { toQuestionCardData := mkBase glossary
                    cloze_answers := coerceStrList
                      (pyOr (jGet payloadDict "cloze_answers")
                            (jGet payloadDict "correct_answers")) }))
            | .emq => do
                let glossary ← glossaryValidate glossaryJ
                let instructions ← instructionsValidate (jGet payloadDict "instructions")
                let matchItems := iterItems
                  (pyOr (pyOr (jGet payloadDict "matches")
                              (jGet payloadDict "correct_matches"))
                        (some (.arr [])))
                .ok (some (.emq
                  { toQuestionCardData := mkBase glossary
                    instructions := instructions
                    premises := coerceStrList (jGet payloadDict "premises")
                    options := coerceStrList (jGet payloadDict "options")
                    «matches» := matchItems.filterMap matchValidate }))
            | .note => .ok none
            | .flashcard => .ok none
        | _ => .ok none
  | _ => .ok none

/-- `parse_card_data(card_type, raw_data)` applied to JSON input (the
isinstance short-circuit for already-typed instances cannot fire on raw
JSON).  Conversion failures fall back to `GenericCardData`; pydantic
errors escaping `_convert_card_data` propagate. -/
def parse_card_data (ct : Option CardType) (raw : JVal) : Except String CardData :=
  match convert_card_data ct raw with
  | .error e => .error e
  | .ok (some c) => .ok c
  | .ok none =>
      let generator := maybeMeta (match raw with | .obj e => jGet e "generator" | _ => none)
      let payloadDict : Option (List (String × JVal)) :=
        match raw with
        | .obj e =>
            match jGet e "payload" with
            | some (.obj p) => some p
            | _ => some e
        | _ => none
      .ok (.generic { generator := generator, payload := payloadDict })

/-! ## services/ai/clients.py : `_resolve_schema`

The Python `_resolve` closure recurses into the referenced definition on a
`$ref` jump, so the recursion is not structural; a fuel parameter bounds
it.  The Python recursion always terminates because the trail grows only
by previously-unseen reference strings drawn from the finite input, so the
top-level entry point supplies fuel larger than any reachable jump chain
and the fuel-exhaustion branch is unreachable on the inputs Python
accepts. -/

/-- `ref_value.split("/")[-1]`. -/
def refKeyOf (r : String) : String :=
  match (r.splitOn "/").getLast? with
  | some k => k
  | none => ""

mutual

/-- Syntactic size of a JSON value (used to pick a generous fuel). -/
def jSize : JVal → Nat
  | .obj entries => 1 + jSizeEntries entries
  | .arr items => 1 + jSizeItems items
  | _ => 1

/-- Syntactic size of object entries. -/
def jSizeEntries : List (String × JVal) → Nat
  | [] => 0
  | (_, v) :: rest => 1 + jSize v + jSizeEntries rest

/-- Syntactic size of array items. -/
def jSizeItems : List JVal → Nat
  | [] => 0
  | v :: rest => 1 + jSize v + jSizeItems rest

end

mutual

/-- The inner `_resolve(obj, trail=...)` on a single JSON value.  The fuel
decreases on every recursive step; the top-level entry point supplies
enough fuel for any recursion the Python code (which terminates because
the trail grows only by previously-unseen reference strings drawn from the
finite input) can perform, so the fuel-exhaustion branch is unreachable
from `resolve_schema`. -/
def resolveVal (defs : Option (List (String × JVal))) :
    Nat → List String → JVal → Except String JVal
  | 0, _, _ => .error "resolution fuel exhausted"
  | fuel + 1, trail, v =>
      match v with
      | .obj entries =>
          match jGet entries "$ref" with
          | some refVal =>
              match refVal with
              | .str r =>
                  if ¬ r.startsWith "#/$defs/" then
                    .error "Unsupported $ref target"
                  else
                    match defs with
                    | none => .error "Missing $defs entry"
                    | some defsObj =>
                        match jGet defsObj (refKeyOf r) with
                        | none => .error "Missing $defs entry"
                        | some target =>
                            if r ∈ trail then .error "Circular $ref detected"
                            else resolveVal defs fuel (trail ++ [r]) target
              | _ => .error "Invalid JSON schema: $ref must be a string."
          | none => (resolveEntries defs fuel trail entries).map .obj
      | .arr items => (resolveItems defs fuel trail items).map .arr
      | v => .ok v

/-- The dict comprehension `{k: _resolve(v) for k, v in obj.items() if k != "$defs"}`. -/
def resolveEntries (defs : Option (List (String × JVal))) :
    Nat → List String → List (String × JVal) → Except String (List (String × JVal))
  | 0, _, _ => .error "resolution fuel exhausted"
  | fuel + 1, trail, l =>
      match l with
      | [] => .ok []
      | (k, v) :: rest =>
          if k = "$defs" then resolveEntries defs fuel trail rest
          else do
            let v' ← resolveVal defs fuel trail v
            let rest' ← resolveEntries defs fuel trail rest
            .ok ((k, v') :: rest')

/-- The list comprehension `[_resolve(item) for item in obj]`. -/
def resolveItems (defs : Option (List (String × JVal))) :
    Nat → List String → List JVal → Except String (List JVal)
  | 0, _, _ => .error "resolution fuel exhausted"
  | fuel + 1, trail, l =>
      match l with
      | [] => .ok []
      | v :: rest => do
          let v' ← resolveVal defs fuel trail v
          let rest' ← resolveItems defs fuel trail rest
          .ok (v' :: rest')

end

/-- Fuel supplied by the top-level entry point.  Any single recursion path
makes at most `S` list/descent steps inside the current subtree per
followed reference, and at most `S` distinct references can be followed
(`S` bounds both), so `(S + 2) * (S + 2)` steps are ample. -/
def resolveFuel (schema : List (String × JVal)) (defs : Option (List (String × JVal))) : Nat :=
  let S := jSizeEntries schema + (match defs with | none => 0 | some d => jSizeEntries d)
  (S + 2) * (S + 2)

/-- `_resolve_schema(schema)`.  Faithful to the source: schemas with
neither a top-level `$defs` key nor a top-level `$ref` key are returned
unchanged, and the final comprehension maps `_resolve` over top-level
values only (a top-level `$ref` key is kept, not resolved). -/
def resolve_schema (schema : List (String × JVal)) : Except String (List (String × JVal)) :=
  if ¬ jHasKey schema "$defs" ∧ ¬ jHasKey schema "$ref" then .ok schema
  else do
    let defs : Option (List (String × JVal)) ←
      match jGet schema "$defs" with
      | none => .ok none
      | some .null => .ok none
      | some (.obj d) => .ok (some d)
      | some _ => .error "Invalid JSON schema: $defs must be an object."
    resolveEntries defs (resolveFuel schema defs) [] schema

mutual

/-- No object anywhere in the value carries a `$defs` or `$ref` key. -/
def cleanJ : JVal → Bool
  | .obj entries => cleanEntries entries
  | .arr items => cleanItems items
  | _ => true

/-- `cleanJ` over object entries. -/
def cleanEntries : List (String × JVal) → Bool
  | [] => true
  | (k, v) :: rest => k ≠ "$defs" && k ≠ "$ref" && cleanJ v && cleanEntries rest

/-- `cleanJ` over array items. -/
def cleanItems : List JVal → Bool
  | [] => true
  | v :: rest => cleanJ v && cleanItems rest

end

/-! ## services/ai/pdf.py : chunking and truncation -/

/-- `PDFTextSegment`. -/
structure PDFTextSegment where
  page_index : Nat
  content : String
  deriving DecidableEq, Repr

/-- `PDFImageFragment`. -/
structure PDFImageFragment where
  page_index : Nat
  mime_type : String
  data_base64 : String
  deriving DecidableEq, Repr

/-- `PDFIngestionResult`. -/
structure PDFIngestionResult where
  filename : Option String := none
  text_segments : List PDFTextSegment := []
  images : List PDFImageFragment := []
  page_count : Nat := 0
  deriving DecidableEq, Repr

/-- `UploadedPDF`; the byte payload is a list of bytes. -/
structure UploadedPDF where
  filename : Option String := none
  payload : List Nat := []
  deriving DecidableEq, Repr

/-- Successive slices `sanitized[start : start + size]` produced by
`range(0, len(sanitized), size)`.  A zero step raises in Python; the model
returns no slices in that degenerate case. -/
def chunkPieces (size : Nat) (l : List Char) : List (List Char) :=
  if size = 0 then [] else
  match l with
  | [] => []
  | c :: cs =>
    (c :: cs).take size :: chunkPieces size ((c :: cs).drop size)
termination_by l.length
decreasing_by simp_wf; omega

/-- `DocumentIngestionService._chunk(page_index, content)`: collapse
whitespace, slice into chunk-sized pieces, strip each piece, keep the
non-empty ones. -/
def chunkSegments (size : Nat) (page_index : Nat) (content : String) : List PDFTextSegment :=
  (chunkPieces size (collapseWs content).data).filterMap (fun piece =>
    let seg := pyStrip ⟨piece⟩
    if seg = "" then none else some ⟨page_index, seg⟩)

/-- The running-total loop of `DocumentIngestionService._truncate`. -/
def truncateAux (maxLen : Nat) : Nat → List PDFTextSegment → List PDFTextSegment
  | _, [] => []
  | total, seg :: rest =>
      if maxLen ≤ total then []
      else
        let remaining := maxLen - total
        let content :=
          if seg.content.length ≤ remaining then seg.content
          else pyTake seg.content remaining
        ⟨seg.page_index, content⟩ :: truncateAux maxLen (total + content.length) rest

/-- `DocumentIngestionService._truncate(segments)`. -/
def truncateSegments (maxLen : Nat) (segments : List PDFTextSegment) : List PDFTextSegment :=
  truncateAux maxLen 0 segments

/-- Total character count across text segments. -/
def segmentsTotalLen (l : List PDFTextSegment) : Nat :=
  (l.map (fun s => s.content.length)).sum

/-- The chunk-then-truncate pipeline `_extract` applies to page text
(page text extraction itself is the external PDF library). -/
def ingestTextPipeline (chunkSize maxLen : Nat) (pages : List (Nat × String)) :
    List PDFTextSegment :=
  truncateSegments maxLen (pages.flatMap (fun pc => chunkSegments chunkSize pc.1 pc.2))

/-! ## services/ai/pdf_strategies.py : native PDF context strategy -/

/-- Wire-level content parts (`GeminiTextPart` / `GeminiInlineDataPart` /
`GeminiFilePart`). -/
inductive ContentPart where
  | text (text : String)
  | inlineData (mime_type : String) (data : String)
  | fileData (mime_type : String) (file_uri : String)
  deriving DecidableEq, Repr

/-- Base64 alphabet. -/
def b64Alphabet : List Char :=
  "ABCDEFGHIJKLMNOPQRSTUVWXYZabcdefghijklmnopqrstuvwxyz0123456789+/".data

/-- Base64 digit for a 6-bit group. -/
def b64Char (n : Nat) : Char := b64Alphabet.getD n '='

/-- `base64.b64encode(payload).decode("ascii")` over byte lists. -/
def b64encode : List Nat → String
  | [] => ""
  | [a] =>
      ⟨[b64Char (a / 4 % 64), b64Char (a % 4 * 16), '=', '=']⟩
  | [a, b] =>
      ⟨[b64Char (a / 4 % 64), b64Char (a % 4 * 16 + b / 16 % 16), b64Char (b % 16 * 4), '=']⟩
  | a :: b :: c :: rest =>
      (⟨[b64Char (a / 4 % 64), b64Char (a % 4 * 16 + b / 16 % 16),
         b64Char (b % 16 * 4 + c / 64 % 4), b64Char (c % 64)]⟩ : String) ++ b64encode rest

/-- Result of a native strategy run, instrumented with the list of files
for which `client.upload_file` was invoked. -/
structure NativeBuildOutcome where
  documents : List PDFIngestionResult := []
  extra_parts : List ContentPart := []
  upload_calls : List UploadedPDF := []
  deriving Repr

/-- Extra content parts the native strategy produces for a single file. -/
def perFileParts (upload : UploadedPDF → Except String String) (threshold : Nat)
    (f : UploadedPDF) : List ContentPart :=
  if threshold < f.payload.length then
    match upload f with
    | .ok uri => [.fileData "application/pdf" uri]
    | .error _ => []
  else
    [.inlineData "application/pdf" (b64encode f.payload)]

/-- `NativePDFContextStrategy.build_context`.  `ingest` stands for
`DocumentIngestionService.ingest_pdf` (PDF parsing is an external
library) and `upload` for `client.upload_file` (network). -/
def nativeBuildContext (ingest : UploadedPDF → PDFIngestionResult)
    (upload : UploadedPDF → Except String String) (threshold : Nat) :
    List UploadedPDF → NativeBuildOutcome
  | [] => {}
  | f :: rest =>
      let doc := ingest f
      let perFile : List ContentPart × List UploadedPDF :=
        if threshold < f.payload.length then
          match upload f with
          | .ok uri => ([.fileData "application/pdf" uri], [f])
          | .error _ => ([], [f])
        else
          ([.inlineData "application/pdf" (b64encode f.payload)], [])
      let restOut := nativeBuildContext ingest upload threshold rest
      { documents := doc :: restOut.documents
        extra_parts := perFile.1 ++ restOut.extra_parts
        upload_calls := perFile.2 ++ restOut.upload_calls }

/-! ## domain/schemas/ai.py -/

/-- `AiGeneratedCardOption`. -/
structure AiGeneratedCardOption where
  id : String
  text : String
  deriving DecidableEq, Repr

/-- `AiGeneratedRationale`. -/
structure AiGeneratedRationale where
  primary : String
  alternatives : List (String × String) := []
  deriving DecidableEq, Repr

/-- `AiGeneratedPayload`. -/
structure AiGeneratedPayload where
  question : String
  options : Option (List AiGeneratedCardOption) := none
  correct_answers : List String := []
  rationale : AiGeneratedRationale
  connections : List String := []
  glossary : List (String × String) := []
  numerical_ranges : List String := []
  references : List String := []
  deriving DecidableEq, Repr

/-- `AiGeneratedCard` (difficulty validated to 1..5 by pydantic). -/
structure AiGeneratedCard where
  card_type : CardType
  difficulty : Nat
  payload : AiGeneratedPayload
  deriving DecidableEq, Repr

/-- `AiRetentionAid`. -/
structure AiRetentionAid where
  markdown : String
  deriving DecidableEq, Repr

/-- `AiGeneratedStudyCardSet`. -/
structure AiGeneratedStudyCardSet where
  cards : List AiGeneratedCard
  retention_aid : Option AiRetentionAid := none
  deriving DecidableEq, Repr

/-- `StudyCardGenerationRequest` (prompt-only free-text fields that never
reach the persisted data are omitted; `target_card_count` is validated to
1..60 by pydantic). -/
structure StudyCardGenerationRequest where
  topics : List String := []
  clinical_focus : List String := []
  learning_objectives : List String := []
  target_card_count : Option Nat := none
  preferred_card_types : List CardType := []
  temperature : Option Rat := none
  model : Option String := none
  include_retention_aid : Bool := true
  existing_card_ids : List Int := []
  deriving Repr

/-! ## services/ai/agents.py -/

/-- `AgentConfiguration`. -/
structure AgentConfiguration where
  default_model : String
  default_temperature : Rat
  default_card_count : Nat
  max_card_count : Nat
  max_attempts : Nat := 3
  deriving Repr

/-- `AgentResult`. -/
structure AgentResult where
  cards : List AiGeneratedCard
  retention_aid : Option AiRetentionAid := none
  model_used : String
  temperature_applied : Rat
  requested_card_count : Nat
  deriving Repr

/-- The two exception classes recovered inside an attempt
(`GeminiClientError` and pydantic `ValidationError`). -/
inductive GeminiError where
  | clientError (msg : String)
  | validationError (msg : String)
  deriving DecidableEq, Repr

/-- One attempt's outcome as seen by the agent: either a recoverable error
from `generate_json`/`model_validate`, or a validated card set. -/
def AttemptOutcome := Except GeminiError AiGeneratedStudyCardSet

/-- Python `request.x or default` for numeric options (`0` is falsy). -/
def pyOrNat (a : Option Nat) (b : Nat) : Nat :=
  match a with
  | some n => if n = 0 then b else n
  | none => b

/-- Python `request.temperature or default` (`0.0` is falsy). -/
def pyOrRat (a : Option Rat) (b : Rat) : Rat :=
  match a with
  | some q => if q = 0 then b else q
  | none => b

/-- Python `request.model or default` (`""` is falsy). -/
def pyOrStr (a : Option String) (b : String) : String :=
  match a with
  | some s => if s = "" then b else s
  | none => b

/-- `target_card_count = min(request.target_card_count or default, max_card_count)`. -/
def agentTarget (cfg : AgentConfiguration) (req : StudyCardGenerationRequest) : Nat :=
  min (pyOrNat req.target_card_count cfg.default_card_count) cfg.max_card_count

/-- `StudyCardGenerationAgent._enforce_count`. -/
def enforce_count (cards : List AiGeneratedCard) (target : Nat) : List AiGeneratedCard :=
  if cards.length ≤ target then cards else cards.take target

/-- Mutable loop state of `StudyCardGenerationAgent.generate` (the
feedback string and dedup context influence only prompt text and are not
modelled). -/
structure AgentLoopState where
  generated : List AiGeneratedCard := []
  retention : Option AiRetentionAid := none
  lastError : Option GeminiError := none

/-- The bounded attempt loop of `StudyCardGenerationAgent.generate`.  The
`oracle` stands for one `generate_json`-plus-`model_validate` round trip
per attempt index. -/
def agentLoop (oracle : Nat → AttemptOutcome) (includeAid : Bool) (target : Nat) :
    Nat → Nat → AgentLoopState → AgentLoopState
  | 0, _, st => st
  | n + 1, attempt, st =>
      if target ≤ st.generated.length then st
      else
        match oracle attempt with
        | .error e => agentLoop oracle includeAid target n (attempt + 1) { st with lastError := some e }
        | .ok parsed =>
            if parsed.cards.isEmpty then
              agentLoop oracle includeAid target n (attempt + 1) st
            else
              agentLoop oracle includeAid target n (attempt + 1)
                { st with
                  generated := st.generated ++ parsed.cards
                  retention :=
                    if includeAid ∧ parsed.retention_aid.isSome then parsed.retention_aid
                    else st.retention }

/-- `StudyCardGenerationAgent.generate`: run the loop, then either raise
the last recorded error (or a generic failure) on a shortfall, or truncate
to the target and return the result. -/
def agentGenerate (cfg : AgentConfiguration) (req : StudyCardGenerationRequest)
    (oracle : Nat → AttemptOutcome) : Except GeminiError AgentResult :=
  let target := agentTarget cfg req
  let final := agentLoop oracle req.include_retention_aid target cfg.max_attempts 1 {}
  if final.generated.length < target then
    .error (final.lastError.getD
      (.clientError "Failed to generate the requested number of distinct study cards."))
  else
    .ok
      { cards := enforce_count final.generated target
        retention_aid := final.retention
        model_used := pyOrStr req.model cfg.default_model
        temperature_applied := pyOrRat req.temperature cfg.default_temperature
        requested_card_count := target }

/-! ## services/ai/generation_service.py -/

/-- `CardType.value`. -/
def cardTypeValue : CardType → String
  | .mcqSingle => "mcq_single"
  | .mcqMulti => "mcq_multi"
  | .written => "written"
  | .trueFalse => "true_false"
  | .cloze => "cloze"
  | .emq => "emq"
  | .note => "note"
  | .flashcard => "flashcard"

/-- Python `int(s)` on strings: optional surrounding whitespace, optional
sign, decimal digits (digit-group underscores are not produced by the
model output this is applied to). -/
def pyInt (s : String) : Option Int :=
  let t := (pyStrip s).data
  let signAndDigits : Int × List Char :=
    match t with
    | '+' :: rest => (1, rest)
    | '-' :: rest => (-1, rest)
    | l => (1, l)
  let digits := signAndDigits.2
  if digits = [] ∨ ¬ digits.all Char.isDigit then none
  else some (signAndDigits.1 * (Int.ofNat (digits.foldl (fun acc c => acc * 10 + (c.toNat - 48)) 0)))

/-- `dict.get` on a string-to-string dictionary. -/
def strDictGet : List (String × String) → String → Option String
  | [], _ => none
  | (k, v) :: rest, key => if k = key then some v else strDictGet rest key

/-- `model_dump(mode="json")` of `AiGeneratedPayload` (used for the
`GenericCardData` fallback payload). -/
def payloadDumpEntries (p : AiGeneratedPayload) : List (String × JVal) :=
  [ ("question", .str p.question)
  , ("options",
      match p.options with
      | none => .null
      | some l => .arr (l.map (fun o => .obj [("id", .str o.id), ("text", .str o.text)])))
  , ("correct_answers", jStrList p.correct_answers)
  , ("rationale",
      .obj [("primary", .str p.rationale.primary), ("alternatives", jStrDict p.rationale.alternatives)])
  , ("connections", jStrList p.connections)
  , ("glossary", jStrDict p.glossary)
  , ("numerical_ranges", jStrList p.numerical_ranges)
  , ("references", jStrList p.references) ]

/-- Line scan of `AiStudyCardService._extract_heading`. -/
def extractHeadingLines : List String → Option String
  | [] => none
  | line :: rest =>
      let stripped := pyStrip line
      if startsWithHash stripped then some (pyStrip (lstripHash stripped))
      else if stripped ≠ "" then some (pyStrip (pyTake stripped 80))
      else extractHeadingLines rest

/-- `AiStudyCardService._extract_heading(markdown)`. -/
def extract_heading (markdown : String) : Option String :=
  if markdown = "" then none else extractHeadingLines (pyLines markdown)

/-- `AiStudyCardService._parse_boolean_answer` (string-set logic identical
to `_parse_bool`'s string branch, shared here as `parseBoolStr`). -/
def parse_boolean_answer : List String → Option Bool
  | [] => none
  | c :: _ => parseBoolStr c

/-- `StudyCardCreate`. -/
structure StudyCardCreate where
  card_type : CardType
  difficulty : Nat
  data : CardData
  deriving Repr

/-- `StudyCardRead` as returned by `import_card_batch`: the repository
persists one entity per payload and echoes its content back (ids and
timestamps are storage-assigned and elided). -/
structure StudyCardRead where
  card_type : CardType
  difficulty : Nat
  data : CardData
  deriving Repr

/-- `document.filename or f"uploaded-{index + 1}.pdf"` over the ingested
documents. -/
def sourcesOf (documents : List PDFIngestionResult) : List String :=
  documents.enum.map (fun iv =>
    pyOrStr iv.2.filename ("uploaded-" ++ toString (iv.1 + 1) ++ ".pdf"))

/-- `AiStudyCardService._card_generator_metadata`. -/
def card_generator_metadata (req : StudyCardGenerationRequest)
    (documents : List PDFIngestionResult) (meta : AgentResult) : CardGeneratorMetadata :=
  { model := meta.model_used
    temperature := some meta.temperature_applied
    requested_card_count := some (Int.ofNat meta.requested_card_count)
    topics := some req.topics
    clinical_focus := some req.clinical_focus
    learning_objectives := some req.learning_objectives
    preferred_card_types := some (req.preferred_card_types.map cardTypeValue)
    existing_card_ids := some req.existing_card_ids
    sources := some (sourcesOf documents)
    schema_version := "1.0.0" }

/-- `AiStudyCardService._map_card_to_data`.  `.error` models the explicit
`ValueError` raises of the NOTE branch (not caught by the surrounding
`except ValidationError`); pydantic validation failures of the MCQ
constructors are recovered as the `GenericCardData` fallback. -/
def map_card_to_data (card : AiGeneratedCard) (generator : CardGeneratorMetadata) :
    Except String CardData :=
  let payload := card.payload
  let rationale : CardRationale :=
    { primary := payload.rationale.primary, alternatives := payload.rationale.alternatives }
  let base : QuestionCardData :=
    { generator := some generator
      prompt := payload.question
      rationale := some rationale
      glossary := payload.glossary
      connections := payload.connections
      references := payload.references
      numerical_ranges := payload.numerical_ranges }
  let genericFallback : CardData :=
    .generic { generator := some generator, payload := some (payloadDumpEntries payload) }
  match card.card_type with
  | .mcqSingle =>
      let options := (payload.options.getD []).map (fun o => CardOption.mk o.id o.text)
      let correctIds :=
        if payload.correct_answers ≠ [] then payload.correct_answers
        else match options with | [] => [] | o :: _ => [o.id]
      match mkMcqSingle
        { toQuestionCardData := base, options := options, correct_option_ids := correctIds } with
      | .ok d => .ok (.mcqSingle d)
      | .error _ => .ok genericFallback
  | .mcqMulti =>
      let options := (payload.options.getD []).map (fun o => CardOption.mk o.id o.text)
      let correctIds :=
        if payload.correct_answers ≠ [] then payload.correct_answers
        else (options.take 2).map (fun o => o.id)
      match mkMcqMulti
        { toQuestionCardData := base, options := options, correct_option_ids := correctIds } with
      | .ok d => .ok (.mcqMulti d)
      | .error _ => .ok genericFallback
  | .written =>
      .ok (.written { toQuestionCardData := base, expected_answer := payload.correct_answers.head? })
  | .trueFalse =>
      let answer := (parse_boolean_answer payload.correct_answers).getD true
      .ok (.trueFalse { toQuestionCardData := base, correct_answer := answer })
  | .cloze =>
      .ok (.cloze { toQuestionCardData := base, cloze_answers := payload.correct_answers })
  | .emq =>
      let ms := payload.correct_answers.enum.filterMap (fun iv =>
        (pyInt iv.2).map (fun n => EmqMatch.mk (Int.ofNat iv.1) n))
      .ok (.emq
        { toQuestionCardData := base
          instructions := payload.references.head?
          premises := payload.connections
          options := (payload.options.getD []).map (fun o => o.text)
          «matches» := ms })
  | .note =>
      let markdown := pyStrip payload.rationale.primary
      if markdown = "" then
        .error "Generated note card contained empty markdown content."
      else
        let title :=
          match strDictGet payload.glossary "title" with
          | some t => if pyStrip t ≠ "" then pyStrip t else pyOrStr (extract_heading markdown) "Note"
          | none => pyOrStr (extract_heading markdown) "Note"
        let title := pyStrip title
        if title = "" then .error "Generated note card resolved to a blank title."
        else .ok (.note { generator := some generator, title := title, markdown := markdown })
  | .flashcard => .ok genericFallback

/-- `AiStudyCardService._build_retention_note`. -/
def build_retention_note (retention : AiRetentionAid) (generator : CardGeneratorMetadata) :
    Except String StudyCardCreate :=
  let markdown := pyStrip retention.markdown
  if markdown = "" then .error "Retention aids must include markdown content."
  else
    let title := pyOrStr (extract_heading markdown) "Retention Aid"
    .ok ⟨CardType.note, 1,
      .note { generator := some generator, title := pyStrip title, markdown := markdown }⟩

/-- Line scan behind `retentionTitleSpec`: the first non-blank line wins;
a `#`-heading contributes its text with leading hashes and whitespace
removed (with the fallback when that text is empty), any other non-blank
line contributes its first 80 characters stripped. -/
def retentionTitleScan : List String → String
  | [] => "Retention Aid"
  | line :: rest =>
      let stripped := pyStrip line
      if startsWithHash stripped then
        let h := pyStrip (lstripHash stripped)
        if h = "" then "Retention Aid" else h
      else if stripped ≠ "" then pyStrip (pyTake stripped 80)
      else retentionTitleScan rest

/-- Title of a retention note as the specification describes it, with the
literal fallback `"Retention Aid"` when no usable text exists. -/
def retentionTitleSpec (strippedMarkdown : String) : String :=
  retentionTitleScan (pyLines strippedMarkdown)

/-- The condition guarding the synthesized retention note in
`_persist_generated_cards`. -/
def includeRetentionNote (req : StudyCardGenerationRequest) (meta : AgentResult) : Bool :=
  meta.retention_aid.isSome ∧ req.include_retention_aid ∧
    (req.preferred_card_types = [] ∨ CardType.note ∈ req.preferred_card_types)

/-- The card-mapping loop of `_persist_generated_cards` (`for card in
generated_cards: card_payloads.append(...)`); the first mapping failure
aborts the batch. -/
def mapCardBatch (generator : CardGeneratorMetadata) :
    List AiGeneratedCard → Except String (List StudyCardCreate)
  | [] => .ok []
  | card :: rest => do
      let data ← map_card_to_data card generator
      let tail ← mapCardBatch generator rest
      .ok (StudyCardCreate.mk card.card_type card.difficulty data :: tail)

/-- `AiStudyCardService._persist_generated_cards`: map every generated
card, optionally append the retention note, then import the batch (the
repository returns one read model per payload). -/
def persist_generated_cards (generated : List AiGeneratedCard)
    (req : StudyCardGenerationRequest) (documents : List PDFIngestionResult)
    (meta : AgentResult) : Except String (List StudyCardRead) := do
  let generator := card_generator_metadata req documents meta
  let mapped ← mapCardBatch generator generated
  let payloads ←
    match meta.retention_aid with
    | some aid =>
        if includeRetentionNote req meta then do
          let noteCard ← build_retention_note aid generator
          pure (mapped ++ [noteCard])
        else pure mapped
    | none => pure mapped
  pure (payloads.map (fun p => StudyCardRead.mk p.card_type p.difficulty p.data))

/-- `StudyCardGenerationSummary`. -/
structure StudyCardGenerationSummary where
  card_count : Nat
  sources : List String
  model_used : String
  temperature_applied : Rat
  deriving Repr

/-- `StudyCardGenerationResult`. -/
structure StudyCardGenerationResult where
  cards : List StudyCardRead
  retention_aid : Option AiRetentionAid := none
  summary : StudyCardGenerationSummary
  raw_generation : AiGeneratedStudyCardSet
  deriving Repr

/-- Errors escaping `generate_from_pdfs`: the agent's terminal error, or a
`ValueError` from the note/retention content guards. -/
inductive ServiceError where
  | agentFailed (e : GeminiError)
  | contentInvalid (msg : String)
  deriving DecidableEq, Repr

/-- `AiStudyCardService.generate_from_pdfs`, starting from already-built
PDF context (`documents`) and an attempt oracle: invoke the agent, persist
the batch, assemble summary and result. -/
def generate_from_pdfs (cfg : AgentConfiguration) (req : StudyCardGenerationRequest)
    (oracle : Nat → AttemptOutcome) (documents : List PDFIngestionResult) :
    Except ServiceError StudyCardGenerationResult :=
  match agentGenerate cfg req oracle with
  | .error e => .error (.agentFailed e)
  | .ok agentResult =>
      match persist_generated_cards agentResult.cards req documents agentResult with
      | .error m => .error (.contentInvalid m)
      | .ok cards =>
          .ok
            { cards := cards
              retention_aid :=
                if req.include_retention_aid then agentResult.retention_aid else none
              summary :=
                { card_count := cards.length
                  sources := sourcesOf documents
                  model_used := agentResult.model_used
                  temperature_applied := agentResult.temperature_applied }
              raw_generation :=
                { cards := agentResult.cards, retention_aid := agentResult.retention_aid } }

/-! ## Shared lemmas -/

theorem pyStrip_data (s : String) :
    (pyStrip s).data = List.rdropWhile Char.isWhitespace (s.data.dropWhile Char.isWhitespace) :=
  rfl

theorem dropWhile_cons_false (p : Char → Bool) :
    ∀ (l : List Char) (b : Char) (bs : List Char),
      List.dropWhile p l = b :: bs → p b = false := by
  intro l
  induction l with
  | nil => intro b bs h; simp at h
  | cons c cs ih =>
      intro b bs h
      cases hc : p c
      · rw [List.dropWhile_cons, hc] at h
        simp at h
        rw [h.1] at hc
        exact hc
      · rw [List.dropWhile_cons, hc] at h
        simp at h
        exact ih b bs h

theorem dropWhile_eq_self_of_head (p : Char → Bool) (l : List Char)
    (h : ∀ b bs, l = b :: bs → p b = false) : List.dropWhile p l = l := by
  cases l with
  | nil => simp
  | cons b bs => simp [List.dropWhile_cons, h b bs rfl]

theorem dropWhile_rdrop_self (p : Char → Bool) (l : List Char) :
    List.dropWhile p (List.rdropWhile p (List.dropWhile p l)) =
      List.rdropWhile p (List.dropWhile p l) := by
  apply dropWhile_eq_self_of_head
  intro b bs hB
  obtain ⟨t, ht⟩ := List.rdropWhile_prefix p (List.dropWhile p l)
  rw [hB] at ht
  exact dropWhile_cons_false p l b (bs ++ t) (by rw [← ht]; simp)

theorem pyStrip_idem (s : String) : pyStrip (pyStrip s) = pyStrip s := by
  rcases s with ⟨l⟩
  apply congrArg String.mk
  show List.rdropWhile Char.isWhitespace
      (List.dropWhile Char.isWhitespace
        (List.rdropWhile Char.isWhitespace (List.dropWhile Char.isWhitespace l))) =
    List.rdropWhile Char.isWhitespace (List.dropWhile Char.isWhitespace l)
  rw [dropWhile_rdrop_self, List.rdropWhile_idempotent]

theorem pyStrip_length_le (s : String) : (pyStrip s).length ≤ s.length := by
  rcases s with ⟨l⟩
  show (List.rdropWhile Char.isWhitespace (l.dropWhile Char.isWhitespace)).length ≤ l.length
  calc (List.rdropWhile Char.isWhitespace (l.dropWhile Char.isWhitespace)).length
      ≤ (l.dropWhile Char.isWhitespace).length :=
        (List.rdropWhile_prefix _ _).length_le
    _ ≤ l.length := (List.dropWhile_suffix _).sublist.length_le

theorem pyTake_length (s : String) (n : Nat) : (pyTake s n).length = min n s.length := by
  rcases s with ⟨l⟩
  show (l.take n).length = min n l.length
  exact List.length_take n l

theorem pyTake_append_drop (s : String) (n : Nat) :
    pyTake s n ++ String.mk (s.data.drop n) = s := by
  rcases s with ⟨l⟩
  show String.mk (l.take n ++ l.drop n) = String.mk l
  rw [List.take_append_drop]

/-! ## C5 : MCQ construction invariants -/

theorem validateOptionIds_ok_iff (d : MultipleChoiceCardData) :
    validateOptionIds d = .ok () ↔
      d.correct_option_ids ≠ [] ∧
        ∀ i ∈ d.correct_option_ids, i ∈ d.options.map (fun o => o.id) := by
  unfold validateOptionIds
  by_cases hnil : d.correct_option_ids = []
  · simp [hnil]
  · simp only [hnil, if_false, ne_eq, not_false_eq_true, true_and]
    rw [show ∀ a b : Except String Unit, (if (d.correct_option_ids.filter
      (fun i => ¬ (d.options.map (fun o => o.id)).contains i) = []) then a else b) =
      if (d.correct_option_ids.filter
      (fun i => ¬ (d.options.map (fun o => o.id)).contains i) = []) then a else b from
      fun _ _ => rfl]
    by_cases hf : d.correct_option_ids.filter
        (fun i => ¬ (d.options.map (fun o => o.id)).contains i) = []
    · simp only [hf, if_true, true_iff]
      intro i hi
      have := List.filter_eq_nil_iff.mp hf i hi
      simpa using this
    · simp only [hf, if_false]
      constructor
      · intro h; exact absurd h (by simp)
      · intro h
        apply absurd hf
        intro _
        apply hf
        apply List.filter_eq_nil_iff.mpr
        intro i hi
        simpa using h i hi

/-- C5: an MCQ card whose `correct_option_ids` references an undeclared
option fails validation for both variants; a single-choice card with a
number of correct ids other than one fails; a multi-choice card with fewer
than two correct ids fails; and any field content satisfying all three
conditions is accepted unchanged. -/
theorem C5_mcq_invariants (d : MultipleChoiceCardData) :
    ((∃ i ∈ d.correct_option_ids, i ∉ d.options.map (fun o => o.id)) →
        (∀ x, mkMcqSingle d ≠ .ok x) ∧ (∀ x, mkMcqMulti d ≠ .ok x)) ∧
    (d.correct_option_ids.length ≠ 1 → ∀ x, mkMcqSingle d ≠ .ok x) ∧
    (d.correct_option_ids.length < 2 → ∀ x, mkMcqMulti d ≠ .ok x) ∧
    ((∀ i ∈ d.correct_option_ids, i ∈ d.options.map (fun o => o.id)) →
        (d.correct_option_ids.length = 1 → mkMcqSingle d = .ok d) ∧
        (2 ≤ d.correct_option_ids.length → mkMcqMulti d = .ok d)) := by
  refine ⟨?_, ?_, ?_, ?_⟩
  · rintro ⟨i, hi, hmem⟩
    have hv : validateOptionIds d ≠ .ok () := by
      intro h
      exact hmem (((validateOptionIds_ok_iff d).mp h).2 i hi)
    rcases hval : validateOptionIds d with e | u
    · constructor <;> intro x <;> simp [mkMcqSingle, mkMcqMulti, Bind.bind, Except.bind, hval]
    · cases u; exact absurd hval hv
  · intro hlen x
    rcases hval : validateOptionIds d with e | u
    · simp [mkMcqSingle, Bind.bind, Except.bind, hval]
    · cases u
      simp [mkMcqSingle, Bind.bind, Except.bind, hval, hlen]
  · intro hlen x
    rcases hval : validateOptionIds d with e | u
    · simp [mkMcqMulti, Bind.bind, Except.bind, hval]
    · cases u
      have : ¬ 2 ≤ d.correct_option_ids.length := by omega
      simp [mkMcqMulti, Bind.bind, Except.bind, hval, this]
  · intro hall
    have hvalid : ∀ n, d.correct_option_ids.length = n → 1 ≤ n →
        validateOptionIds d = .ok () := by
      intro n hn h1
      apply (validateOptionIds_ok_iff d).mpr
      refine ⟨?_, hall⟩
      intro h
      rw [h] at hn
      simp at hn
      omega
    constructor
    · intro hlen
      have hv := hvalid _ rfl (by omega)
      simp [mkMcqSingle, Bind.bind, Except.bind, hv, hlen, pure, Except.pure]
    · intro hlen
      have hv := hvalid _ rfl (by omega)
      simp [mkMcqMulti, Bind.bind, Except.bind, hv, hlen, pure, Except.pure]

/-- C5 witness: concrete instances exercising every branch of the
invariant theorem. -/
theorem C5_mcq_invariants_witness :
    (∀ x, mkMcqSingle
      { prompt := "q", options := [⟨"a", "A"⟩], correct_option_ids := ["z"] } ≠ .ok x) ∧
    mkMcqSingle
      { prompt := "q", options := [⟨"a", "A"⟩, ⟨"b", "B"⟩], correct_option_ids := ["b"] } =
      .ok { prompt := "q", options := [⟨"a", "A"⟩, ⟨"b", "B"⟩], correct_option_ids := ["b"] } ∧
    mkMcqMulti
      { prompt := "q", options := [⟨"a", "A"⟩, ⟨"b", "B"⟩], correct_option_ids := ["a", "b"] } =
      .ok { prompt := "q", options := [⟨"a", "A"⟩, ⟨"b", "B"⟩], correct_option_ids := ["a", "b"] } :=
  ⟨((C5_mcq_invariants _).1 (by decide)).1,
   ((C5_mcq_invariants _).2.2.2 (by decide)).1 (by decide),
   ((C5_mcq_invariants _).2.2.2 (by decide)).2 (by decide)⟩

/-! ## C10 : synthesized retention note card -/

theorem stringMk_ne_empty (l : List Char) (h : l ≠ []) : String.mk l ≠ "" := by
  intro he
  exact h (by simpa using congrArg String.data he)

theorem pyStrip_head_not_ws (s : String) (b : Char) (bs : List Char)
    (hd : (pyStrip s).data = b :: bs) : Char.isWhitespace b = false := by
  rw [pyStrip_data] at hd
  obtain ⟨t, ht⟩ := List.rdropWhile_prefix Char.isWhitespace
    (s.data.dropWhile Char.isWhitespace)
  rw [hd] at ht
  exact dropWhile_cons_false Char.isWhitespace s.data b (bs ++ t) (by rw [← ht]; simp)

theorem pyStrip_ne_empty_head (s : String) (h : pyStrip s ≠ "") :
    ∃ b bs, (pyStrip s).data = b :: bs ∧ Char.isWhitespace b = false := by
  rcases hd : (pyStrip s).data with _ | ⟨b, bs⟩
  · exact absurd (show pyStrip s = "" from by
      have h0 : pyStrip s = String.mk (pyStrip s).data := rfl
      rw [h0, hd]) h
  · exact ⟨b, bs, rfl, pyStrip_head_not_ws s b bs hd⟩

theorem pyStrip_take_ne (s : String) (n : Nat) (hn : 0 < n) (h : pyStrip s ≠ "") :
    pyStrip (pyTake (pyStrip s) n) ≠ "" := by
  obtain ⟨b, bs, hd, hb⟩ := pyStrip_ne_empty_head s h
  rcases n with _ | m
  · omega
  · have htake : (pyTake (pyStrip s) (m + 1)).data = b :: bs.take m := by
      show (pyStrip s).data.take (m + 1) = b :: bs.take m
      rw [hd]
      rfl
    have hdata : (pyStrip (pyTake (pyStrip s) (m + 1))).data =
        List.rdropWhile Char.isWhitespace
          (List.dropWhile Char.isWhitespace (b :: bs.take m)) := by
      rw [pyStrip_data, htake]
    rw [List.dropWhile_cons, hb] at hdata
    simp only [Bool.false_eq_true, if_false] at hdata
    have hne : List.rdropWhile Char.isWhitespace (b :: bs.take m) ≠ [] := by
      intro hnil
      have := List.rdropWhile_eq_nil_iff.mp hnil b (by simp)
      rw [hb] at this
      simp at this
    intro he
    apply hne
    rw [← hdata]
    simpa using congrArg String.data he

theorem titleScan_eq_extract (lines : List String) :
    retentionTitleScan lines =
      pyStrip (pyOrStr (extractHeadingLines lines) "Retention Aid") := by
  induction lines with
  | nil => rfl
  | cons line rest ih =>
      rw [retentionTitleScan, extractHeadingLines]
      by_cases hh : startsWithHash (pyStrip line) = true
      · simp only [hh, if_true]
        by_cases he : pyStrip (lstripHash (pyStrip line)) = ""
        · simp only [he, if_true, pyOrStr]
          rfl
        · simp only [he, if_false, pyOrStr, pyStrip_idem]
      · simp only [hh, if_false]
        by_cases hs : pyStrip line = ""
        · have hs' : ¬ (pyStrip line ≠ "") := by simpa using hs
          simp only [hs', if_false]
          exact ih
        · have hs' : pyStrip line ≠ "" := hs
          have hz : pyStrip (pyTake (pyStrip line) 80) ≠ "" :=
            pyStrip_take_ne line 80 (by omega) hs'
          simp [hs', hz, pyOrStr, pyStrip_idem]

/-- C10: every successfully synthesized retention note card has card type
NOTE and difficulty exactly 1, and its title is the first non-blank line
of the stripped retention markdown — rendered as heading text when
`#`-prefixed, else truncated to 80 characters — with the literal fallback
`"Retention Aid"` when no usable text exists; blank markdown never builds
a card. -/
theorem C10_retention_note (gen : CardGeneratorMetadata) (aid : AiRetentionAid) :
    (pyStrip aid.markdown = "" → ∀ c, build_retention_note aid gen ≠ .ok c) ∧
    (∀ c, build_retention_note aid gen = .ok c →
      c.card_type = CardType.note ∧ c.difficulty = 1 ∧
      c.data = .note
        { generator := some gen
          title := retentionTitleSpec (pyStrip aid.markdown)
          markdown := pyStrip aid.markdown }) := by
  constructor
  · intro hblank c
    simp [build_retention_note, hblank]
  · intro c hc
    unfold build_retention_note at hc
    by_cases hblank : pyStrip aid.markdown = ""
    · simp [hblank] at hc
    · simp only [hblank, if_false, Except.ok.injEq] at hc
      subst hc
      refine ⟨rfl, rfl, ?_⟩
      simp only [retentionTitleSpec]
      rw [titleScan_eq_extract]
      rw [extract_heading, if_neg hblank]

/-- C10 witness: a concrete retention aid produces a NOTE card at
difficulty 1. -/
theorem C10_retention_note_witness :
    (⟨CardType.note, 1,
      .note { generator := some { model := "m" }, title := "Key points",
              markdown := "# Key points\nRemember." }⟩ : StudyCardCreate).card_type =
      CardType.note :=
  ((C10_retention_note { model := "m" } ⟨"# Key points\nRemember."⟩).2 _ rfl).1

/-! ## C8 : two-level truncation bounds -/

theorem chunkPieces_mem_length (size : Nat) (l : List Char) :
    ∀ piece ∈ chunkPieces size l, piece.length ≤ size := by
  generalize hn : l.length = n
  induction n using Nat.strong_induction_on generalizing l with
  | _ n ih =>
    intro piece hp
    rw [chunkPieces.eq_def] at hp
    by_cases hsz : size = 0
    · simp [hsz] at hp
    · simp only [hsz, if_false] at hp
      cases l with
      | nil => simp at hp
      | cons c cs =>
          simp only [List.mem_cons] at hp
          rcases hp with hp | hp
          · subst hp
            simp [List.length_take]
          · subst hn
            exact ih ((c :: cs).drop size).length
              (by simp [List.length_drop]; omega) _ rfl piece hp

theorem chunkSegments_mem_length (size page : Nat) (content : String) :
    ∀ s ∈ chunkSegments size page content, s.content.length ≤ size := by
  intro s hs
  unfold chunkSegments at hs
  rw [List.mem_filterMap] at hs
  obtain ⟨piece, hpiece, hmk⟩ := hs
  by_cases he : pyStrip ⟨piece⟩ = ""
  · simp [he] at hmk
  · simp only [he, if_false] at hmk
    cases hmk
    calc (pyStrip ⟨piece⟩).length ≤ (⟨piece⟩ : String).length := pyStrip_length_le _
      _ = piece.length := rfl
      _ ≤ size := chunkPieces_mem_length size _ piece hpiece

theorem truncateAux_budget (maxLen : Nat) :
    ∀ (segs : List PDFTextSegment) (total : Nat), total ≤ maxLen →
      total + segmentsTotalLen (truncateAux maxLen total segs) ≤ maxLen ∧
      ((truncateAux maxLen total segs).length < segs.length →
        total + segmentsTotalLen (truncateAux maxLen total segs) = maxLen) := by
  intro segs
  induction segs with
  | nil => intro total htot; constructor
           · simpa [truncateAux, segmentsTotalLen] using htot
           · intro h; simp [truncateAux] at h
  | cons seg rest ih =>
      intro total htot
      rw [truncateAux]
      by_cases hbreak : maxLen ≤ total
      · have : total = maxLen := by omega
        subst this
        constructor
        · simp [segmentsTotalLen]
        · intro _; simp [segmentsTotalLen]
      · simp only [hbreak, if_false]
        have hrem : total < maxLen := by omega
        set remaining := maxLen - total with hremdef
        set content :=
          (if seg.content.length ≤ remaining then seg.content
           else pyTake seg.content remaining) with hcontent
        have hclen : content.length ≤ remaining := by
          rw [hcontent]
          by_cases hfit : seg.content.length ≤ remaining
          · simp [hfit]
          · simp only [hfit, if_false]
            rw [pyTake_length]
            omega
        have htot' : total + content.length ≤ maxLen := by omega
        obtain ⟨hb, hlen⟩ := ih (total + content.length) htot'
        constructor
        · simp only [segmentsTotalLen, List.map_cons, List.sum_cons] at hb ⊢
          omega
        · intro hl
          simp only [List.length_cons] at hl
          have := hlen (by omega)
          simp only [segmentsTotalLen, List.map_cons, List.sum_cons] at this ⊢
          omega

theorem truncateAux_length_le (maxLen : Nat) :
    ∀ (segs : List PDFTextSegment) (total : Nat),
      (truncateAux maxLen total segs).length ≤ segs.length := by
  intro segs
  induction segs with
  | nil => intro total; simp [truncateAux]
  | cons seg rest ih =>
      intro total
      rw [truncateAux]
      by_cases hbreak : maxLen ≤ total
      · simp [hbreak]
      · simp only [hbreak, if_false, List.length_cons]
        exact Nat.succ_le_succ (ih _)

theorem truncateAux_mem_le (maxLen B : Nat) :
    ∀ (segs : List PDFTextSegment) (total : Nat),
      (∀ s ∈ segs, s.content.length ≤ B) →
      ∀ s ∈ truncateAux maxLen total segs, s.content.length ≤ B := by
  intro segs
  induction segs with
  | nil => intro total _ s hs; rw [truncateAux] at hs; simp at hs
  | cons seg rest ih =>
      intro total hall s hs
      rw [truncateAux] at hs
      by_cases hbreak : maxLen ≤ total
      · simp [hbreak] at hs
      · simp only [hbreak, if_false, List.mem_cons] at hs
        rcases hs with hs | hs
        · subst hs
          by_cases hfit : seg.content.length ≤ maxLen - total
          · simpa [hfit] using hall seg (by simp)
          · simp only [hfit, if_false]
            show (pyTake seg.content (maxLen - total)).length ≤ B
            rw [pyTake_length]
            have := hall seg (by simp)
            omega
        · exact ih _ (fun t ht => hall t (by simp [ht])) s hs

theorem truncateAux_zip (maxLen : Nat) :
    ∀ (segs : List PDFTextSegment) (total : Nat),
      ∀ p ∈ (truncateAux maxLen total segs).zip segs,
        (∃ rest, p.2.content.data = p.1.content.data ++ rest) ∧
        p.1.page_index = p.2.page_index := by
  intro segs
  induction segs with
  | nil => intro total p hp; simp at hp
  | cons seg rest ih =>
      intro total p hp
      rw [truncateAux] at hp
      by_cases hbreak : maxLen ≤ total
      · simp [hbreak] at hp
      · simp only [hbreak, if_false, List.zip_cons_cons, List.mem_cons] at hp
        rcases hp with hp | hp
        · subst hp
          by_cases hfit : seg.content.length ≤ maxLen - total
          · exact ⟨⟨[], by simp [hfit]⟩, by simp [hfit]⟩
          · refine ⟨⟨seg.content.data.drop (maxLen - total), ?_⟩, by simp [hfit]⟩
            simp only [hfit, if_false]
            exact (List.take_append_drop _ _).symm
        · exact ih _ p hp

/-- C8: for any page texts, the chunk-then-truncate pipeline keeps every
retained segment within the chunk length, keeps the total retained length
within the configured budget, drops segments only once the budget is
exactly filled, and pairs every retained segment with the corresponding
chunk so that its content is a prefix of that chunk (the boundary segment
is truncated rather than dropped) with the page index preserved. -/
theorem C8_truncation_bounds (chunkSize maxLen : Nat) (pages : List (Nat × String))
    (_hsz : 0 < chunkSize) :
    (∀ s ∈ ingestTextPipeline chunkSize maxLen pages, s.content.length ≤ chunkSize) ∧
    segmentsTotalLen (ingestTextPipeline chunkSize maxLen pages) ≤ maxLen ∧
    (ingestTextPipeline chunkSize maxLen pages).length ≤
      (pages.flatMap (fun pc => chunkSegments chunkSize pc.1 pc.2)).length ∧
    ((ingestTextPipeline chunkSize maxLen pages).length <
        (pages.flatMap (fun pc => chunkSegments chunkSize pc.1 pc.2)).length →
      segmentsTotalLen (ingestTextPipeline chunkSize maxLen pages) = maxLen) ∧
    (∀ p ∈ (ingestTextPipeline chunkSize maxLen pages).zip
        (pages.flatMap (fun pc => chunkSegments chunkSize pc.1 pc.2)),
      (∃ rest, p.2.content.data = p.1.content.data ++ rest) ∧
      p.1.page_index = p.2.page_index) := by
  have hsegs : ∀ s ∈ pages.flatMap (fun pc => chunkSegments chunkSize pc.1 pc.2),
      s.content.length ≤ chunkSize := by
    intro s hs
    rw [List.mem_flatMap] at hs
    obtain ⟨pc, _, hmem⟩ := hs
    exact chunkSegments_mem_length chunkSize pc.1 pc.2 s hmem
  have hbudget := truncateAux_budget maxLen
    (pages.flatMap (fun pc => chunkSegments chunkSize pc.1 pc.2)) 0 (by omega)
  refine ⟨?_, ?_, ?_, ?_, ?_⟩
  · exact truncateAux_mem_le maxLen chunkSize _ 0 hsegs
  · simpa using hbudget.1
  · exact truncateAux_length_le maxLen _ 0
  · intro h
    simpa using hbudget.2 h
  · exact truncateAux_zip maxLen _ 0

/-- C8 witness: the bounds applied at a concrete two-page document. -/
theorem C8_truncation_bounds_witness :
    segmentsTotalLen (ingestTextPipeline 5 8 [(1, "hello   world"), (2, "again")]) ≤ 8 :=
  (C8_truncation_bounds 5 8 [(1, "hello   world"), (2, "again")] (by omega)).2.1

/-! ## C7 : native PDF context strategy -/

/-- C7: the native strategy ingests every file into the returned documents
(also on upload failure); a file at or below the inline threshold yields
exactly one inline part and no upload call; a file above it yields exactly
one upload call, with one file part on success and no part on failure. -/
theorem C7_native_strategy (ingest : UploadedPDF → PDFIngestionResult)
    (upload : UploadedPDF → Except String String) (threshold : Nat)
    (files : List UploadedPDF) :
    (nativeBuildContext ingest upload threshold files).documents = files.map ingest ∧
    (nativeBuildContext ingest upload threshold files).extra_parts =
      files.flatMap (perFileParts upload threshold) ∧
    (nativeBuildContext ingest upload threshold files).upload_calls =
      files.filter (fun f => threshold < f.payload.length) ∧
    (∀ f : UploadedPDF,
      (f.payload.length ≤ threshold →
        perFileParts upload threshold f =
          [.inlineData "application/pdf" (b64encode f.payload)]) ∧
      (threshold < f.payload.length →
        (∀ uri, upload f = .ok uri →
          perFileParts upload threshold f = [.fileData "application/pdf" uri]) ∧
        (∀ e, upload f = .error e → perFileParts upload threshold f = []))) := by
  refine ⟨?_, ?_, ?_, ?_⟩
  · induction files with
    | nil => rfl
    | cons f rest ih => simp [nativeBuildContext, ih]
  · induction files with
    | nil => rfl
    | cons f rest ih =>
        simp only [nativeBuildContext, List.flatMap_cons, ih]
        congr 1
        unfold perFileParts
        by_cases hbig : threshold < f.payload.length
        · simp only [hbig, if_true]
          cases upload f <;> rfl
        · simp [hbig]
  · induction files with
    | nil => rfl
    | cons f rest ih =>
        simp only [nativeBuildContext, ih]
        by_cases hbig : threshold < f.payload.length
        · simp only [List.filter_cons, hbig]
          cases hup : upload f <;> simp [hup, hbig]
        · simp only [List.filter_cons, hbig]
          simp [hbig]
  · intro f
    refine ⟨?_, ?_⟩
    · intro hsmall
      have hbig : ¬ threshold < f.payload.length := by omega
      simp [perFileParts, hbig]
    · intro hbig
      constructor
      · intro uri hup
        simp [perFileParts, hbig, hup]
      · intro e hup
        simp [perFileParts, hbig, hup]

/-- C7 witness: a small file produces exactly one inline part. -/
theorem C7_native_strategy_witness :
    perFileParts (fun _ => .ok "uri") 5 ⟨some "s.pdf", [1, 2, 3]⟩ =
      [.inlineData "application/pdf" (b64encode ([1, 2, 3] : List Nat))] :=
  ((C7_native_strategy (fun f => ⟨f.filename, [], [], 1⟩) (fun _ => .ok "uri") 5
      [⟨some "s.pdf", [1, 2, 3]⟩]).2.2.2 ⟨some "s.pdf", [1, 2, 3]⟩).1 (by decide)

/-! ## C9 : `$ref` siblings are discarded -/

/-- C9: inside `_resolve`, an object carrying a `$ref` key is handled
purely through that reference — any sibling keys are irrelevant to the
result — and when the reference resolves, the whole object is replaced by
the resolution of the referenced definition. -/
theorem C9_ref_sibling_discard (defs : Option (List (String × JVal))) (fuel : Nat)
    (trail : List String) (entries : List (String × JVal)) (v : JVal)
    (href : jGet entries "$ref" = some v) :
    (resolveVal defs (fuel + 1) trail (.obj entries) =
      resolveVal defs (fuel + 1) trail (.obj [("$ref", v)])) ∧
    (∀ r defsObj target,
      v = .str r → r.startsWith "#/$defs/" = true → defs = some defsObj →
      jGet defsObj (refKeyOf r) = some target → r ∉ trail →
      resolveVal defs (fuel + 1) trail (.obj entries) =
        resolveVal defs fuel (trail ++ [r]) target) := by
  constructor
  · rw [resolveVal, resolveVal, href]
    simp [jGet]
  · intro r defsObj target hv hsw hdefs htarget htrail
    subst hv
    subst hdefs
    rw [resolveVal, href]
    simp [hsw, htarget, htrail]

/-- C9 witness: a concrete object with a sibling next to its `$ref`
resolves identically to the bare reference object. -/
theorem C9_ref_sibling_discard_witness :
    resolveVal (some [("X", .obj [("type", .str "string")])]) 3 []
        (.obj [("$ref", .str "#/$defs/X"), ("sibling", .bool true)]) =
      resolveVal (some [("X", .obj [("type", .str "string")])]) 3 []
        (.obj [("$ref", .str "#/$defs/X")]) :=
  (C9_ref_sibling_discard (some [("X", .obj [("type", .str "string")])]) 2 []
    [("$ref", .str "#/$defs/X"), ("sibling", .bool true)] (.str "#/$defs/X") rfl).1

/-! ## C4 : schema reference inlining -/

theorem jGet_none_keys {entries : List (String × JVal)} {key : String}
    (h : jGet entries key = none) : ∀ kv ∈ entries, kv.1 ≠ key := by
  induction entries with
  | nil => intro kv hkv; simp at hkv
  | cons e rest ih =>
      intro kv hkv
      obtain ⟨k0, v0⟩ := e
      rw [jGet] at h
      by_cases he : k0 = key
      · simp [he] at h
      · simp only [he, if_false] at h
        rcases List.mem_cons.mp hkv with hkv | hkv
        · subst hkv; exact he
        · exact ih h kv hkv

theorem cleanEntries_iff (l : List (String × JVal)) :
    cleanEntries l = true ↔
      ∀ kv ∈ l, kv.1 ≠ "$defs" ∧ kv.1 ≠ "$ref" ∧ cleanJ kv.2 = true := by
  induction l with
  | nil => simp [cleanEntries]
  | cons kv rest ih =>
      rcases kv with ⟨k, v⟩
      rw [cleanEntries]
      simp only [Bool.and_eq_true, decide_eq_true_eq, List.mem_cons, ih]
      constructor
      · rintro ⟨⟨⟨h1, h2⟩, h3⟩, h4⟩
        intro x hx
        rcases hx with hx | hx
        · subst hx; exact ⟨h1, h2, h3⟩
        · exact h4 x hx
      · intro h
        obtain ⟨h1, h2, h3⟩ := h (k, v) (Or.inl rfl)
        exact ⟨⟨⟨h1, h2⟩, h3⟩, fun x hx => h x (Or.inr hx)⟩

theorem resolve_clean (defs : Option (List (String × JVal))) :
    ∀ fuel : Nat,
      (∀ trail v v', resolveVal defs fuel trail v = .ok v' → cleanJ v' = true) ∧
      (∀ trail l l', resolveEntries defs fuel trail l = .ok l' →
        ∀ kv ∈ l', (kv.1 ≠ "$defs" ∧ cleanJ kv.2 = true) ∧ ∃ w, (kv.1, w) ∈ l) ∧
      (∀ trail l l', resolveItems defs fuel trail l = .ok l' → cleanItems l' = true) := by
  intro fuel
  induction fuel with
  | zero =>
      refine ⟨fun trail v v' h => ?_, fun trail l l' h => ?_, fun trail l l' h => ?_⟩
      · rw [resolveVal] at h; simp at h
      · rw [resolveEntries] at h; simp at h
      · rw [resolveItems] at h; simp at h
  | succ fuel ih =>
      obtain ⟨ihv, ihe, ihi⟩ := ih
      refine ⟨?_, ?_, ?_⟩
      · intro trail v v' h
        match v with
        | .null | .bool _ | .str _ | .num _ =>
            simp [resolveVal] at h
            subst h
            rfl
        | .arr items =>
            rw [resolveVal] at h
            simp only [Except.map] at h
            rcases hit : resolveItems defs fuel trail items with e | items'
            · rw [hit] at h; simp at h
            · rw [hit] at h
              simp at h
              subst h
              exact ihi trail items items' hit
        | .obj entries =>
            rw [resolveVal] at h
            rcases href : jGet entries "$ref" with _ | refVal
            · rw [href] at h
              simp only [Except.map] at h
              rcases hen : resolveEntries defs fuel trail entries with e | entries'
              · rw [hen] at h; simp at h
              · rw [hen] at h
                simp at h
                subst h
                show cleanEntries entries' = true
                rw [cleanEntries_iff]
                intro kv hkv
                obtain ⟨⟨hd, hc⟩, w, hw⟩ := ihe trail entries entries' hen kv hkv
                exact ⟨hd, jGet_none_keys href (kv.1, w) hw, hc⟩
            · rw [href] at h
              match refVal with
              | .str r =>
                  by_cases hsw : r.startsWith "#/$defs/"
                  · simp only [hsw, not_true_eq_false, if_false] at h
                    match defs with
                    | none => simp at h
                    | some defsObj =>
                        dsimp only at h
                        rcases htg : jGet defsObj (refKeyOf r) with _ | target
                        · rw [htg] at h; simp at h
                        · rw [htg] at h
                          by_cases htr : r ∈ trail
                          · simp [htr] at h
                          · simp only [htr, if_false] at h
                            exact ihv (trail ++ [r]) target v' h
                  · simp [hsw] at h
              | .null | .bool _ | .num _ | .arr _ | .obj _ => simp at h
      · intro trail l l' h
        match l with
        | [] =>
            rw [resolveEntries] at h
            simp at h
            subst h
            intro kv hkv
            simp at hkv
        | (k, v) :: rest =>
            rw [resolveEntries] at h
            by_cases hk : k = "$defs"
            · simp only [hk, if_true] at h
              intro kv hkv
              obtain ⟨hp, w, hw⟩ := ihe trail rest l' h kv hkv
              exact ⟨hp, w, by simp [hw]⟩
            · simp only [hk, if_false, Bind.bind, Except.bind] at h
              rcases hv : resolveVal defs fuel trail v with e | v'
              · rw [hv] at h; simp at h
              · rw [hv] at h
                rcases hrest : resolveEntries defs fuel trail rest with e | rest'
                · rw [hrest] at h; simp at h
                · rw [hrest] at h
                  simp at h
                  subst h
                  intro kv hkv
                  rcases List.mem_cons.mp hkv with hkv | hkv
                  · subst hkv
                    exact ⟨⟨hk, ihv trail v v' hv⟩, v, by simp⟩
                  · obtain ⟨hp, w, hw⟩ := ihe trail rest rest' hrest kv hkv
                    exact ⟨hp, w, by simp [hw]⟩
      · intro trail l l' h
        match l with
        | [] =>
            rw [resolveItems] at h
            simp at h
            subst h
            rfl
        | v :: rest =>
            rw [resolveItems] at h
            simp only [Bind.bind, Except.bind] at h
            rcases hv : resolveVal defs fuel trail v with e | v'
            · rw [hv] at h; simp at h
            · rw [hv] at h
              rcases hrest : resolveItems defs fuel trail rest with e | rest'
              · rw [hrest] at h; simp at h
              · rw [hrest] at h
                simp at h
                subst h
                rw [cleanItems]
                simp [ihv trail v v' hv, ihi trail rest rest' hrest]

/-- C4 counterexample: a schema whose top level carries the `$ref` key
resolves successfully, yet the resolved output still contains a `$ref`
key — the claim that the resolved output never contains `$ref` anywhere is
false (only `$ref` objects strictly below the top level are replaced). -/
theorem C4_schema_resolution_counterexample :
    resolve_schema
        [("$ref", .str "#/$defs/X"),
         ("$defs", .obj [("X", .obj [("type", .str "string")])])] =
      .ok [("$ref", JVal.str "#/$defs/X")] ∧
    jHasKey [("$ref", JVal.str "#/$defs/X")] "$ref" = true :=
  ⟨by with_unfolding_all rfl, rfl⟩

/-- C4 (amended): a schema with neither top-level `$defs` nor top-level
`$ref` is returned unchanged; when the top level has either key, a
successful resolution contains no `$defs` key at all and no `$ref` key
below the top level (top-level entries keep their keys, so a top-level
`$ref` key survives as in the counterexample); and resolution raises on a
non-string `$ref` target, an unresolved reference, and a reference
cycle. -/
theorem C4_schema_resolution_amended :
    (∀ schema : List (String × JVal),
      jHasKey schema "$defs" = false → jHasKey schema "$ref" = false →
      resolve_schema schema = .ok schema) ∧
    (∀ (schema out : List (String × JVal)),
      (jHasKey schema "$defs" = true ∨ jHasKey schema "$ref" = true) →
      resolve_schema schema = .ok out →
      ∀ kv ∈ out, kv.1 ≠ "$defs" ∧ cleanJ kv.2 = true) ∧
    resolve_schema [("$defs", .obj []), ("a", .obj [("$ref", .num 3)])] =
      .error "Invalid JSON schema: $ref must be a string." ∧
    resolve_schema [("$defs", .obj []), ("a", .obj [("$ref", .str "#/$defs/Y")])] =
      .error "Missing $defs entry" ∧
    resolve_schema
        [("$defs", .obj [("X", .obj [("$ref", .str "#/$defs/X")])]),
         ("a", .obj [("$ref", .str "#/$defs/X")])] =
      .error "Circular $ref detected" := by
  refine ⟨?_, ?_, by with_unfolding_all rfl, by with_unfolding_all rfl,
    by with_unfolding_all rfl⟩
  · intro schema h1 h2
    simp [resolve_schema, h1, h2]
  · intro schema out hkeys h kv hkv
    unfold resolve_schema at h
    by_cases hg : ¬ jHasKey schema "$defs" = true ∧ ¬ jHasKey schema "$ref" = true
    · rcases hkeys with hkeys | hkeys
      · exact absurd hkeys hg.1
      · exact absurd hkeys hg.2
    · simp only [hg, if_false] at h
      rcases hd : jGet schema "$defs" with _ | dv
      · rw [hd] at h
        simp only [Bind.bind, Except.bind] at h
        obtain ⟨⟨hkd, hkc⟩, _, _⟩ :=
          (resolve_clean none (resolveFuel schema none)).2.1 [] schema out h kv hkv
        exact ⟨hkd, hkc⟩
      · rw [hd] at h
        match dv with
        | .null =>
            simp only [Bind.bind, Except.bind] at h
            obtain ⟨⟨hkd, hkc⟩, _, _⟩ :=
              (resolve_clean none (resolveFuel schema none)).2.1 [] schema out h kv hkv
            exact ⟨hkd, hkc⟩
        | .obj d =>
            simp only [Bind.bind, Except.bind] at h
            obtain ⟨⟨hkd, hkc⟩, _, _⟩ :=
              (resolve_clean (some d) (resolveFuel schema (some d))).2.1 [] schema out h kv hkv
            exact ⟨hkd, hkc⟩
        | .bool _ | .str _ | .num _ | .arr _ =>
            simp [Bind.bind, Except.bind] at h

/-- C4 witness: the amended theorem applied at concrete schemas — an
untouched plain schema and a cleanly resolved one. -/
theorem C4_schema_resolution_witness :
    resolve_schema [("type", JVal.str "object")] = .ok [("type", JVal.str "object")] ∧
    (("properties" : String),
        JVal.obj [("a", JVal.obj [("type", JVal.str "string")])]).1 ≠ "$defs" :=
  ⟨C4_schema_resolution_amended.1 [("type", .str "object")] rfl rfl,
   (C4_schema_resolution_amended.2.1
      [("$defs", .obj [("X", .obj [("type", .str "string")])]),
       ("properties", .obj [("a", .obj [("$ref", .str "#/$defs/X")])])]
      [("properties", JVal.obj [("a", JVal.obj [("type", JVal.str "string")])])]
      (Or.inl rfl) (by with_unfolding_all rfl) _ (by simp)).1⟩

/-! ## C2 : attempt exhaustion and error propagation -/

theorem enforce_count_length (cards : List AiGeneratedCard) (target : Nat) :
    (enforce_count cards target).length = min cards.length target := by
  unfold enforce_count
  by_cases h : cards.length ≤ target
  · simp [h, Nat.min_eq_left h]
  · simp only [h, if_false, List.length_take]
    omega

theorem agentGenerate_ok_length (cfg : AgentConfiguration)
    (req : StudyCardGenerationRequest) (oracle : Nat → AttemptOutcome)
    (res : AgentResult) (h : agentGenerate cfg req oracle = .ok res) :
    res.cards.length = agentTarget cfg req := by
  unfold agentGenerate at h
  by_cases hshort :
      (agentLoop oracle req.include_retention_aid (agentTarget cfg req)
        cfg.max_attempts 1 {}).generated.length < agentTarget cfg req
  · simp [hshort] at h
  · simp only [hshort, if_false, Except.ok.injEq] at h
    subst h
    simp only [enforce_count_length]
    omega

/-- C2: the agent never returns normally with fewer than the target number
of cards (a successful run returns exactly the target count), and when the
loop ends short of the target it raises the last recorded error when one
exists, else the generic failure. -/
theorem C2_exhaustion_behavior (cfg : AgentConfiguration)
    (req : StudyCardGenerationRequest) (oracle : Nat → AttemptOutcome) :
    (∀ res, agentGenerate cfg req oracle = .ok res →
      res.cards.length = agentTarget cfg req) ∧
    ((agentLoop oracle req.include_retention_aid (agentTarget cfg req)
        cfg.max_attempts 1 {}).generated.length < agentTarget cfg req →
      (∀ e, (agentLoop oracle req.include_retention_aid (agentTarget cfg req)
          cfg.max_attempts 1 {}).lastError = some e →
        agentGenerate cfg req oracle = .error e) ∧
      ((agentLoop oracle req.include_retention_aid (agentTarget cfg req)
          cfg.max_attempts 1 {}).lastError = none →
        agentGenerate cfg req oracle =
          .error (.clientError
            "Failed to generate the requested number of distinct study cards."))) := by
  constructor
  · intro res h
    exact agentGenerate_ok_length cfg req oracle res h
  · intro hshort
    constructor
    · intro e he
      unfold agentGenerate
      simp [hshort, he, Option.getD]
    · intro he
      unfold agentGenerate
      simp [hshort, he, Option.getD]

/-- C2 witness: a one-attempt success returns exactly one card, and a
one-attempt run of recorded failures raises the recorded error. -/
theorem C2_exhaustion_behavior_witness :
    ([⟨CardType.cloze, 1,
        { question := "q", rationale := { primary := "r" } }⟩] :
      List AiGeneratedCard).length =
      agentTarget
        { default_model := "m", default_temperature := 1, default_card_count := 1
          max_card_count := 1, max_attempts := 1 } {} ∧
    agentGenerate
        { default_model := "m", default_temperature := 1, default_card_count := 1
          max_card_count := 1, max_attempts := 1 } {}
        (fun _ => .error (.clientError "boom")) =
      .error (.clientError "boom") :=
  ⟨(C2_exhaustion_behavior
      { default_model := "m", default_temperature := 1, default_card_count := 1
        max_card_count := 1, max_attempts := 1 } {}
      (fun _ => .ok { cards := [⟨CardType.cloze, 1,
        { question := "q", rationale := { primary := "r" } }⟩] })).1
      { cards := [⟨CardType.cloze, 1, { question := "q", rationale := { primary := "r" } }⟩]
        retention_aid := none, model_used := "m", temperature_applied := 1
        requested_card_count := 1 } rfl,
   ((C2_exhaustion_behavior
      { default_model := "m", default_temperature := 1, default_card_count := 1
        max_card_count := 1, max_attempts := 1 } {}
      (fun _ => .error (.clientError "boom"))).2 (by decide)).1
      (.clientError "boom") rfl⟩

/-! ## C1 : card-count cap at the service boundary -/

theorem mapCardBatch_ok_length (generator : CardGeneratorMetadata) :
    ∀ (l : List AiGeneratedCard) (out : List StudyCardCreate),
      mapCardBatch generator l = .ok out → out.length = l.length := by
  intro l
  induction l with
  | nil =>
      intro out h
      rw [mapCardBatch] at h
      simp at h
      subst h
      rfl
  | cons card rest ih =>
      intro out h
      rw [mapCardBatch] at h
      simp only [Bind.bind, Except.bind] at h
      rcases hm : map_card_to_data card generator with e | data
      · rw [hm] at h; simp at h
      · rw [hm] at h
        rcases hr : mapCardBatch generator rest with e | tail
        · rw [hr] at h; simp at h
        · rw [hr] at h
          simp at h
          subst h
          simp [ih tail hr]

theorem persist_ok_length (generated : List AiGeneratedCard)
    (req : StudyCardGenerationRequest) (documents : List PDFIngestionResult)
    (meta : AgentResult) (cards : List StudyCardRead)
    (h : persist_generated_cards generated req documents meta = .ok cards) :
    cards.length =
      generated.length + (if includeRetentionNote req meta = true then 1 else 0) := by
  unfold persist_generated_cards at h
  simp only [Bind.bind, Except.bind] at h
  rcases hm : mapCardBatch (card_generator_metadata req documents meta) generated
    with e | mapped
  · rw [hm] at h; simp at h
  · rw [hm] at h
    dsimp only [pure, Except.pure] at h
    have hmlen := mapCardBatch_ok_length _ generated mapped hm
    rcases hr : meta.retention_aid with _ | aid
    · rw [hr] at h
      dsimp only [pure, Except.pure] at h
      simp only [Except.ok.injEq] at h
      have hfalse : includeRetentionNote req meta = false := by
        simp [includeRetentionNote, hr]
      rw [← h]
      simp [hfalse, hmlen]
    · rw [hr] at h
      dsimp only [pure, Except.pure] at h
      by_cases hin : includeRetentionNote req meta = true
      · rw [hin] at h
        rw [if_pos rfl] at h
        rcases hb : build_retention_note aid (card_generator_metadata req documents meta)
          with e | note
        · rw [hb] at h; simp at h
        · rw [hb] at h
          dsimp only [pure, Except.pure] at h
          simp only [Except.ok.injEq] at h
          rw [← h]
          simp [hin, hmlen]
      · have hin' : includeRetentionNote req meta = false := by
          revert hin
          cases includeRetentionNote req meta <;> simp
        rw [hin'] at h
        simp only [Bool.false_eq_true, if_false] at h
        simp only [Except.ok.injEq] at h
        rw [← h]
        simp [hin', hmlen]

/-- C1 counterexample: with target 1 (cap `min 1 60 = 1`), a successful
run that also synthesizes a retention note persists two cards, so
`len(result.cards) <= min(target, max_card_count)` fails at the service
boundary. -/
theorem C1_card_cap_counterexample :
    (match generate_from_pdfs
        { default_model := "gemini", default_temperature := 1, default_card_count := 10
          max_card_count := 60, max_attempts := 3 }
        { target_card_count := some 1 }
        (fun _ => .ok
          { cards := [⟨CardType.mcqSingle, 2,
              { question := "Which artery?"
                options := some [⟨"a", "LAD"⟩, ⟨"b", "RCA"⟩]
                correct_answers := ["b"]
                rationale := { primary := "Inferior leads point to RCA." } }⟩]
            retention_aid := some ⟨"# Key points\nRemember the inferior leads."⟩ })
        [] with
      | .ok r => r.cards.length
      | .error _ => 0) = 2 ∧
    ¬ (2 ≤ min (pyOrNat (some 1) 10) 60) :=
  ⟨by with_unfolding_all rfl, by decide⟩

/-- C1 (amended): the persisted result can exceed the cap by exactly the
synthesized retention note card: `len(result.cards)` is at most the cap
plus one, is within the cap whenever no retention aid was requested, and
the agent's own returned cards (`raw_generation.cards`) always number
exactly the cap. -/
theorem C1_card_cap_amended (cfg : AgentConfiguration)
    (req : StudyCardGenerationRequest) (oracle : Nat → AttemptOutcome)
    (documents : List PDFIngestionResult) (r : StudyCardGenerationResult)
    (h : generate_from_pdfs cfg req oracle documents = .ok r) :
    r.cards.length ≤ agentTarget cfg req + 1 ∧
    (req.include_retention_aid = false → r.cards.length ≤ agentTarget cfg req) ∧
    r.raw_generation.cards.length = agentTarget cfg req ∧
    agentTarget cfg req =
      min (pyOrNat req.target_card_count cfg.default_card_count) cfg.max_card_count := by
  unfold generate_from_pdfs at h
  rcases hag : agentGenerate cfg req oracle with e | agentResult
  · rw [hag] at h; simp at h
  · rw [hag] at h
    dsimp only at h
    rcases hp : persist_generated_cards agentResult.cards req documents agentResult
      with e | cards
    · rw [hp] at h; simp at h
    · rw [hp] at h
      dsimp only at h
      simp only [Except.ok.injEq] at h
      subst h
      have hlen := persist_ok_length agentResult.cards req documents agentResult cards hp
      have htarget := agentGenerate_ok_length cfg req oracle agentResult hag
      refine ⟨?_, ?_, ?_, rfl⟩
      · simp only [hlen, htarget]
        by_cases hin : includeRetentionNote req agentResult = true <;> simp [hin]
      · intro hfalse
        have : includeRetentionNote req agentResult = false := by
          simp [includeRetentionNote, hfalse]
        simp [hlen, htarget, this]
      · exact htarget

/-- C1 witness: the amended bound applied at a concrete run without a
retention aid. -/
theorem C1_card_cap_witness :
    ([({ card_type := CardType.cloze, difficulty := 1
         data := CardData.cloze
          { generator := some
              { model := "m", temperature := some 1, requested_card_count := some 1
                topics := some [], clinical_focus := some []
                learning_objectives := some [], preferred_card_types := some []
                existing_card_ids := some [], sources := some []
                schema_version := "1.0.0" }
            prompt := "q", rationale := some { primary := "r" } } } :
        StudyCardRead)] : List StudyCardRead).length ≤
      agentTarget
        { default_model := "m", default_temperature := 1, default_card_count := 1
          max_card_count := 1, max_attempts := 1 } { include_retention_aid := false } + 1 :=
  (C1_card_cap_amended
    { default_model := "m", default_temperature := 1, default_card_count := 1
      max_card_count := 1, max_attempts := 1 }
    { include_retention_aid := false }
    (fun _ => .ok { cards := [⟨CardType.cloze, 1,
        { question := "q", rationale := { primary := "r" } }⟩] })
    []
    { cards := [{ card_type := CardType.cloze, difficulty := 1
                  data := CardData.cloze
                    { generator := some
                        { model := "m", temperature := some 1
                          requested_card_count := some 1, topics := some []
                          clinical_focus := some [], learning_objectives := some []
                          preferred_card_types := some [], existing_card_ids := some []
                          sources := some [], schema_version := "1.0.0" }
                      prompt := "q", rationale := some { primary := "r" } } }]
      retention_aid := none
      summary := { card_count := 1, sources := [], model_used := "m"
                   temperature_applied := 1 }
      raw_generation :=
        { cards := [⟨CardType.cloze, 1,
            { question := "q", rationale := { primary := "r" } }⟩]
          retention_aid := none } }
    (by with_unfolding_all rfl)).1

/-! ## C6 : blank note / retention markdown is a hard failure -/

theorem mapCardBatch_ok_mem (generator : CardGeneratorMetadata) :
    ∀ (l : List AiGeneratedCard) (out : List StudyCardCreate),
      mapCardBatch generator l = .ok out →
      ∀ c ∈ l, ∃ d, map_card_to_data c generator = .ok d := by
  intro l
  induction l with
  | nil => intro out _ c hc; simp at hc
  | cons card rest ih =>
      intro out h c hc
      rw [mapCardBatch] at h
      simp only [Bind.bind, Except.bind] at h
      rcases hm : map_card_to_data card generator with e | data
      · rw [hm] at h; simp at h
      · rw [hm] at h
        rcases hr : mapCardBatch generator rest with e | tail
        · rw [hr] at h; simp at h
        · rcases List.mem_cons.mp hc with hc | hc
          · subst hc; exact ⟨data, hm⟩
          · exact ih tail hr c hc

/-- C6: a generated NOTE card whose rationale markdown strips to the empty
string makes `_map_card_to_data` raise (never the `GenericCardData`
fallback), a retention aid with blank markdown makes
`_build_retention_note` raise, and either failure aborts
`_persist_generated_cards` — no batch is returned. -/
theorem C6_blank_note_propagation :
    (∀ (card : AiGeneratedCard) (generator : CardGeneratorMetadata),
      card.card_type = CardType.note →
      pyStrip card.payload.rationale.primary = "" →
      map_card_to_data card generator =
        .error "Generated note card contained empty markdown content." ∧
      ∀ g, map_card_to_data card generator ≠ .ok (.generic g)) ∧
    (∀ (aid : AiRetentionAid) (generator : CardGeneratorMetadata),
      pyStrip aid.markdown = "" →
      build_retention_note aid generator =
        .error "Retention aids must include markdown content.") ∧
    (∀ (generated : List AiGeneratedCard) (req : StudyCardGenerationRequest)
        (documents : List PDFIngestionResult) (meta : AgentResult)
        (card : AiGeneratedCard),
      card ∈ generated → card.card_type = CardType.note →
      pyStrip card.payload.rationale.primary = "" →
      ∀ out, persist_generated_cards generated req documents meta ≠ .ok out) ∧
    (∀ (generated : List AiGeneratedCard) (req : StudyCardGenerationRequest)
        (documents : List PDFIngestionResult) (meta : AgentResult)
        (aid : AiRetentionAid),
      meta.retention_aid = some aid → includeRetentionNote req meta = true →
      pyStrip aid.markdown = "" →
      ∀ out, persist_generated_cards generated req documents meta ≠ .ok out) := by
  have hmap : ∀ (card : AiGeneratedCard) (generator : CardGeneratorMetadata),
      card.card_type = CardType.note →
      pyStrip card.payload.rationale.primary = "" →
      map_card_to_data card generator =
        .error "Generated note card contained empty markdown content." := by
    intro card generator htype hblank
    unfold map_card_to_data
    rw [htype]
    simp [hblank]
  have hbuild : ∀ (aid : AiRetentionAid) (generator : CardGeneratorMetadata),
      pyStrip aid.markdown = "" →
      build_retention_note aid generator =
        .error "Retention aids must include markdown content." := by
    intro aid generator hblank
    unfold build_retention_note
    simp [hblank]
  refine ⟨?_, hbuild, ?_, ?_⟩
  · intro card generator htype hblank
    refine ⟨hmap card generator htype hblank, ?_⟩
    intro g hok
    rw [hmap card generator htype hblank] at hok
    exact Except.noConfusion hok
  · intro generated req documents meta card hcmem htype hblank out hok
    unfold persist_generated_cards at hok
    simp only [Bind.bind, Except.bind] at hok
    rcases hm : mapCardBatch (card_generator_metadata req documents meta) generated
      with e | mapped
    · rw [hm] at hok; simp at hok
    · obtain ⟨d, hd⟩ := mapCardBatch_ok_mem _ generated mapped hm card hcmem
      rw [hmap card _ htype hblank] at hd
      exact Except.noConfusion hd
  · intro generated req documents meta aid hsome hin hblank out hok
    unfold persist_generated_cards at hok
    simp only [Bind.bind, Except.bind] at hok
    rcases hm : mapCardBatch (card_generator_metadata req documents meta) generated
      with e | mapped
    · rw [hm] at hok; simp at hok
    · rw [hm] at hok
      dsimp only [pure, Except.pure] at hok
      rw [hsome] at hok
      dsimp only [pure, Except.pure] at hok
      rw [hin] at hok
      rw [if_pos rfl] at hok
      rw [hbuild aid _ hblank] at hok
      simp at hok

/-- C6 witness: a concrete whitespace-only note card raises the content
error. -/
theorem C6_blank_note_propagation_witness :
    map_card_to_data
        ⟨CardType.note, 1, { question := "q", rationale := { primary := "   " } }⟩
        { model := "m" } =
      .error "Generated note card contained empty markdown content." :=
  (C6_blank_note_propagation.1
    ⟨CardType.note, 1, { question := "q", rationale := { primary := "   " } }⟩
    { model := "m" } rfl (by decide)).1

/-! ## C3 : dump/parse round-trip of typed card payloads -/

theorem jAsStrList_dump (l : List String) : jAsStrList (.arr (l.map JVal.str)) = some l := by
  induction l with
  | nil => rfl
  | cons s rest ih =>
      simp only [List.map_cons, jAsStrList, List.foldr_cons] at ih ⊢
      rw [ih]

theorem jAsStrDict_dump (d : List (String × String)) :
    jAsStrDict (.obj (d.map (fun kv => (kv.1, JVal.str kv.2)))) = some d := by
  induction d with
  | nil => rfl
  | cons kv rest ih =>
      simp only [List.map_cons, jAsStrDict, List.foldr_cons] at ih ⊢
      rw [ih]

theorem jAsIntList_dump (l : List Int) :
    jAsIntList (.arr (l.map (fun (n : Int) => JVal.num (n : Rat)))) = some l := by
  induction l with
  | nil => rfl
  | cons n rest ih =>
      simp only [List.map_cons, jAsIntList, List.foldr_cons] at ih ⊢
      rw [ih]
      simp [jAsInt]

theorem jOptField_num_dump (o : Option Rat) :
    jOptField (fun v => match v with | .num q => some q | _ => none)
      (some (dumpOptNum o)) = some o := by
  cases o <;> rfl

theorem jOptField_int_dump (o : Option Int) :
    jOptField jAsInt (some (dumpOptInt o)) = some o := by
  cases o with
  | none => rfl
  | some n => simp [dumpOptInt, jOptField, jAsInt]

theorem jOptField_strList_dump (o : Option (List String)) :
    jOptField jAsStrList (some (dumpOptStrList o)) = some o := by
  cases o with
  | none => rfl
  | some l => simp [dumpOptStrList, jStrList, jOptField, jAsStrList_dump]

theorem jOptField_intList_dump (o : Option (List Int)) :
    jOptField jAsIntList (some (dumpOptIntList o)) = some o := by
  cases o with
  | none => rfl
  | some l => simp [dumpOptIntList, jOptField, jAsIntList_dump]

theorem metaValidate_dump (g : CardGeneratorMetadata) :
    metaValidate (metaDumpEntries g) = some g := by
  have h1 : jGet (metaDumpEntries g) "model" = some (.str g.model) := rfl
  have h2 : jGet (metaDumpEntries g) "temperature" = some (dumpOptNum g.temperature) := rfl
  have h3 : jGet (metaDumpEntries g) "requested_card_count" =
    some (dumpOptInt g.requested_card_count) := rfl
  have h4 : jGet (metaDumpEntries g) "topics" = some (dumpOptStrList g.topics) := rfl
  have h5 : jGet (metaDumpEntries g) "clinical_focus" =
    some (dumpOptStrList g.clinical_focus) := rfl
  have h6 : jGet (metaDumpEntries g) "learning_objectives" =
    some (dumpOptStrList g.learning_objectives) := rfl
  have h7 : jGet (metaDumpEntries g) "preferred_card_types" =
    some (dumpOptStrList g.preferred_card_types) := rfl
  have h8 : jGet (metaDumpEntries g) "existing_card_ids" =
    some (dumpOptIntList g.existing_card_ids) := rfl
  have h9 : jGet (metaDumpEntries g) "sources" = some (dumpOptStrList g.sources) := rfl
  have h10 : jGet (metaDumpEntries g) "schema_version" = some (.str g.schema_version) := rfl
  unfold metaValidate
  rw [h1, h2, h3, h4, h5, h6, h7, h8, h9, h10]
  simp only [jOptField_num_dump, jOptField_int_dump, jOptField_strList_dump,
    jOptField_intList_dump, Option.bind_eq_bind, Option.some_bind]
  rfl

theorem meta_roundtrip (og : Option CardGeneratorMetadata) :
    maybeMeta (some (metaOptDump og)) = og := by
  cases og with
  | none => rfl
  | some g =>
      show metaValidate (metaDumpEntries g) = some g
      exact metaValidate_dump g

theorem rationale_roundtrip (orat : Option CardRationale) :
    maybeRationale (some (rationaleOptDump orat)) = orat := by
  cases orat with
  | none => rfl
  | some r =>
      show rationaleValidate
        [("primary", JVal.str r.primary), ("alternatives", jStrDict r.alternatives)] = some r
      unfold rationaleValidate
      have h1 : jGet [("primary", JVal.str r.primary), ("alternatives", jStrDict r.alternatives)]
          "primary" = some (.str r.primary) := rfl
      have h2 : jGet [("primary", JVal.str r.primary), ("alternatives", jStrDict r.alternatives)]
          "alternatives" = some (jStrDict r.alternatives) := rfl
      rw [h1, h2]
      simp only [jStrDict, jAsStrDict_dump, Option.bind_eq_bind, Option.some_bind]
      rfl

theorem optionValidate_dump (o : CardOption) : optionValidate (optionDump o) = some o := rfl

theorem matchValidate_dump (m : EmqMatch) : matchValidate (matchDump m) = some m := by
  unfold matchValidate matchDump
  simp [jGet, jAsInt, Option.bind]

theorem pyStr_comp_str : (pyStr ∘ JVal.str) = id := funext fun _ => rfl

theorem coerceStrList_dump (l : List String) :
    coerceStrList (some (.arr (l.map JVal.str))) = l := by
  unfold coerceStrList
  simp [List.map_map, pyStr_comp_str]

theorem pyOr_some_str (s : String) (b : Option JVal) (h : s ≠ "") :
    pyOr (some (.str s)) b = some (.str s) := by
  simp [pyOr, jTruthy, h]

theorem coerceStrList_pyOr_none (l : List String) :
    coerceStrList (pyOr (some (.arr (l.map JVal.str))) none) = l := by
  cases l with
  | nil => rfl
  | cons s rest =>
      rw [pyOr]
      simp only [jTruthy, List.map_cons, List.isEmpty_cons, Bool.not_false, if_true]
      exact coerceStrList_dump (s :: rest)

theorem filterMap_roundtrip {α β : Type} (f : α → β) (g : β → Option α)
    (h : ∀ a, g (f a) = some a) (l : List α) : (l.map f).filterMap g = l := by
  induction l with
  | nil => rfl
  | cons a rest ih => simp [List.filterMap_cons, h a, ih]

theorem instructionsValidate_dump (oi : Option String) :
    instructionsValidate (some (jOptStr oi)) = .ok oi := by
  cases oi <;> rfl

theorem iterItems_pyOr1 {α : Type} (f : α → JVal) (l : List α) :
    iterItems (pyOr (some (.arr (l.map f))) (some (.arr []))) = l.map f := by
  cases l <;> simp [pyOr, jTruthy, iterItems]

theorem iterItems_pyOr2 {α : Type} (f : α → JVal) (l : List α) :
    iterItems (pyOr (pyOr (some (.arr (l.map f))) none) (some (.arr []))) = l.map f := by
  cases l <;> simp [pyOr, jTruthy, iterItems]

theorem note_roundtrip (n : NoteCardData) (ht : pyStrip n.title = n.title)
    (hne : n.title ≠ "") :
    parse_card_data (some .note) (dumpCardData (.note n)) = .ok (.note n) := by
  unfold parse_card_data convert_card_data dumpCardData
  simp [jGet, meta_roundtrip, ht, hne]

theorem written_roundtrip (d : WrittenCardData) (hp : d.prompt ≠ "") :
    parse_card_data (some .written) (dumpCardData (.written d)) =
      .ok (.written { d with expected_answer := none }) := by
  unfold parse_card_data convert_card_data dumpCardData questionFieldsDump
  simp [jGet, meta_roundtrip, rationale_roundtrip, pyOr_some_str _ _ hp, coerceDict,
    jStrDict, jAsStrDict_dump, glossaryValidate, coerceStrList_dump, jStrList,
    coerceStrList_pyOr_none, Bind.bind, Except.bind,
    show coerceStrList none = [] from rfl]

theorem cloze_roundtrip (d : ClozeCardData) (hp : d.prompt ≠ "") :
    parse_card_data (some .cloze) (dumpCardData (.cloze d)) = .ok (.cloze d) := by
  unfold parse_card_data convert_card_data dumpCardData questionFieldsDump
  simp [jGet, meta_roundtrip, rationale_roundtrip, pyOr_some_str _ _ hp, coerceDict,
    jStrDict, jAsStrDict_dump, glossaryValidate, coerceStrList_dump, jStrList,
    coerceStrList_pyOr_none, Bind.bind, Except.bind,
    show coerceStrList none = [] from rfl]

theorem emq_roundtrip (d : EmqCardData) (hp : d.prompt ≠ "") :
    parse_card_data (some .emq) (dumpCardData (.emq d)) = .ok (.emq d) := by
  unfold parse_card_data convert_card_data dumpCardData questionFieldsDump
  simp [jGet, meta_roundtrip, rationale_roundtrip, pyOr_some_str _ _ hp, coerceDict,
    jStrDict, jAsStrDict_dump, glossaryValidate, coerceStrList_dump, jStrList,
    coerceStrList_pyOr_none, Bind.bind, Except.bind, instructionsValidate_dump,
    iterItems_pyOr2, filterMap_roundtrip matchDump matchValidate matchValidate_dump,
    show coerceStrList none = [] from rfl]

theorem generic_roundtrip (g : GenericCardData) (p : List (String × JVal))
    (hp : g.payload = some p) :
    parse_card_data (some .flashcard) (dumpCardData (.generic g)) = .ok (.generic g) := by
  rcases g with ⟨og, op⟩
  simp only [GenericCardData.payload] at hp
  subst hp
  unfold parse_card_data convert_card_data dumpCardData
  simp [jGet, meta_roundtrip]

theorem mcqSingle_roundtrip (d : MultipleChoiceCardData) (hk : mkMcqSingle d = .ok d)
    (hp : d.prompt ≠ "") :
    parse_card_data (some .mcqSingle) (dumpCardData (.mcqSingle d)) =
      .ok (.mcqSingle d) := by
  have hval : validateOptionIds d = .ok () ∧ d.correct_option_ids.length = 1 := by
    unfold mkMcqSingle at hk
    simp only [Bind.bind, Except.bind] at hk
    rcases hv : validateOptionIds d with e | u
    · rw [hv] at hk; simp at hk
    · cases u
      rw [hv] at hk
      by_cases hlen : d.correct_option_ids.length = 1
      · exact ⟨rfl, hlen⟩
      · simp [hlen] at hk
  obtain ⟨hv, hlen⟩ := hval
  obtain ⟨hne, hsub⟩ := (validateOptionIds_ok_iff d).mp hv
  have hopts : d.options ≠ [] := by
    intro hnil
    rcases hcid : d.correct_option_ids with _ | ⟨c, rest⟩
    · exact hne hcid
    · have := hsub c (by simp [hcid])
      simp [hnil] at this
  obtain ⟨c, hc⟩ : ∃ c, d.correct_option_ids = [c] := by
    rcases hcid : d.correct_option_ids with _ | ⟨c, rest⟩
    · simp [hcid] at hlen
    · rcases rest with _ | ⟨c2, rest2⟩
      · exact ⟨c, rfl⟩
      · simp [hcid] at hlen
  have hk2 : mkMcqSingle
      { generator := d.generator, prompt := d.prompt, rationale := d.rationale
        glossary := d.glossary, connections := d.connections, references := d.references
        numerical_ranges := d.numerical_ranges, options := d.options
        correct_option_ids := [c] } = .ok d := by
    rw [← hc]
    exact hk
  unfold parse_card_data convert_card_data dumpCardData questionFieldsDump
  simp [jGet, meta_roundtrip, rationale_roundtrip, pyOr_some_str _ _ hp, coerceDict,
    jStrDict, jAsStrDict_dump, glossaryValidate, coerceStrList_dump, jStrList,
    Bind.bind, Except.bind, iterItems_pyOr1,
    filterMap_roundtrip optionDump optionValidate optionValidate_dump, hopts, hc,
    show coerceStrList (pyOr (some (JVal.arr [JVal.str c])) none) = [c] from
      coerceStrList_pyOr_none [c],
    coerceStrList_pyOr_none,
    show coerceStrList none = [] from rfl, hk2]

theorem mcqMulti_roundtrip (d : MultipleChoiceCardData) (hk : mkMcqMulti d = .ok d)
    (hp : d.prompt ≠ "") :
    parse_card_data (some .mcqMulti) (dumpCardData (.mcqMulti d)) =
      .ok (.mcqMulti d) := by
  have hval : validateOptionIds d = .ok () ∧ 2 ≤ d.correct_option_ids.length := by
    unfold mkMcqMulti at hk
    simp only [Bind.bind, Except.bind] at hk
    rcases hv : validateOptionIds d with e | u
    · rw [hv] at hk; simp at hk
    · cases u
      rw [hv] at hk
      by_cases hlen : 2 ≤ d.correct_option_ids.length
      · exact ⟨rfl, hlen⟩
      · simp [hlen] at hk
  obtain ⟨hv, hlen⟩ := hval
  obtain ⟨hne, hsub⟩ := (validateOptionIds_ok_iff d).mp hv
  have hopts : d.options ≠ [] := by
    intro hnil
    rcases hcid : d.correct_option_ids with _ | ⟨c, rest⟩
    · exact hne hcid
    · have := hsub c (by simp [hcid])
      simp [hnil] at this
  have hnotlt : ¬ d.correct_option_ids.length < 2 := by omega
  have hk2 : mkMcqMulti
      { generator := d.generator, prompt := d.prompt, rationale := d.rationale
        glossary := d.glossary, connections := d.connections, references := d.references
        numerical_ranges := d.numerical_ranges, options := d.options
        correct_option_ids := d.correct_option_ids } = .ok d := hk
  unfold parse_card_data convert_card_data dumpCardData questionFieldsDump
  simp [jGet, meta_roundtrip, rationale_roundtrip, pyOr_some_str _ _ hp, coerceDict,
    jStrDict, jAsStrDict_dump, glossaryValidate, coerceStrList_dump, jStrList,
    coerceStrList_pyOr_none, Bind.bind, Except.bind, iterItems_pyOr1,
    filterMap_roundtrip optionDump optionValidate optionValidate_dump, hopts, hnotlt,
    show coerceStrList none = [] from rfl, hk2]

/-- C3 counterexample: a `TrueFalseCardData` instance does not round-trip —
its dump stores `correct_answer` while the parser looks for
`correct_answers`, so parsing the dump yields a `GenericCardData`
fallback, not the original instance. -/
theorem C3_roundtrip_counterexample :
    parse_card_data (some .trueFalse)
        (dumpCardData (.trueFalse
          { prompt := "Is the sky blue?", correct_answer := true })) ≠
      .ok (.trueFalse { prompt := "Is the sky blue?", correct_answer := true }) := by
  intro h
  injection h with h1
  injection h1

/-- C3 (amended): `parse(card_type, dump(x)) = x` holds for Note data with
a non-blank strip-invariant title, for validated MCQ single/multi, Cloze
and EMQ data with a non-empty prompt, and for Generic data carrying a dict
payload (parsed under the unmapped FLASHCARD type); Written data with a
non-empty prompt re-parses with `expected_answer` dropped (the parser
reads `correct_answers`, which dump does not emit); TrueFalse data never
round-trips (see the counterexample). -/
theorem C3_roundtrip_amended :
    (∀ n : NoteCardData, pyStrip n.title = n.title → n.title ≠ "" →
      parse_card_data (some .note) (dumpCardData (.note n)) = .ok (.note n)) ∧
    (∀ d : MultipleChoiceCardData, mkMcqSingle d = .ok d → d.prompt ≠ "" →
      parse_card_data (some .mcqSingle) (dumpCardData (.mcqSingle d)) =
        .ok (.mcqSingle d)) ∧
    (∀ d : MultipleChoiceCardData, mkMcqMulti d = .ok d → d.prompt ≠ "" →
      parse_card_data (some .mcqMulti) (dumpCardData (.mcqMulti d)) =
        .ok (.mcqMulti d)) ∧
    (∀ d : WrittenCardData, d.prompt ≠ "" →
      parse_card_data (some .written) (dumpCardData (.written d)) =
        .ok (.written { d with expected_answer := none })) ∧
    (∀ d : ClozeCardData, d.prompt ≠ "" →
      parse_card_data (some .cloze) (dumpCardData (.cloze d)) = .ok (.cloze d)) ∧
    (∀ d : EmqCardData, d.prompt ≠ "" →
      parse_card_data (some .emq) (dumpCardData (.emq d)) = .ok (.emq d)) ∧
    (∀ (g : GenericCardData) (p : List (String × JVal)), g.payload = some p →
      parse_card_data (some .flashcard) (dumpCardData (.generic g)) =
        .ok (.generic g)) :=
  ⟨note_roundtrip, mcqSingle_roundtrip, mcqMulti_roundtrip, written_roundtrip,
   cloze_roundtrip, emq_roundtrip, generic_roundtrip⟩

/-- C3 witness: the amended round-trips applied at concrete instances. -/
theorem C3_roundtrip_witness :
    parse_card_data (some .note)
        (dumpCardData (.note { title := "T", markdown := "# md" })) =
      .ok (.note { title := "T", markdown := "# md" }) ∧
    parse_card_data (some .mcqSingle)
        (dumpCardData (.mcqSingle
          { prompt := "Q?", options := [⟨"a", "A"⟩, ⟨"b", "B"⟩],
            correct_option_ids := ["b"] })) =
      .ok (.mcqSingle
        { prompt := "Q?", options := [⟨"a", "A"⟩, ⟨"b", "B"⟩],
          correct_option_ids := ["b"] }) ∧
    parse_card_data (some .written)
        (dumpCardData (.written { prompt := "W?", expected_answer := some "ans" })) =
      .ok (.written { prompt := "W?", expected_answer := none }) :=
  ⟨C3_roundtrip_amended.1 { title := "T", markdown := "# md" } (by decide) (by decide),
   C3_roundtrip_amended.2.1
     { prompt := "Q?", options := [⟨"a", "A"⟩, ⟨"b", "B"⟩], correct_option_ids := ["b"] }
     (by with_unfolding_all rfl) (by decide),
   C3_roundtrip_amended.2.2.2.1 { prompt := "W?", expected_answer := some "ans" }
     (by decide)⟩

end ZiStudy
